import Mathlib

/-!
Verification of the AI-visualization pipeline of the Analytics-Dashboard
repository.

The development shallowly embeds the pipeline implemented in
`src/langgraph_ai_visualization.py` (the LangGraph workflow that is the
orchestrated pipeline of the specification), together with the panel-binding
persistence paths of `src/app.py` (`check_for_existing_ai_panel`,
`add_ai_visualization_to_dashboard`) and the dashboard-deployment outcome of
`ai_visualization_core.py` (`GrafanaAPI.create_dashboard_from_analysis`).

Python strings are modelled as `List Char`; the ASCII whitespace class of
`re`'s `\s` is modelled by `isWsC`.  External effects (the Bedrock LLM call,
the PostgreSQL preview execution, the Grafana HTTP call, the two result-store
writes) are inputs of the model, collected in an `Oracle` record: one run of
the pipeline is a pure function of the request and the oracle.
-/

set_option maxHeartbeats 1000000

namespace AnalyticsDashboard

/-! ## Basic string utilities (Python string/`re` operations on `List Char`) -/

/-- ASCII whitespace, the characters matched by `re`'s pattern class for
whitespace and stripped by `str.strip` (for ASCII input). -/
def isWsC (c : Char) : Bool :=
  c == ' ' || c == '\t' || c == '\n' || c == '\r' || c == Char.ofNat 11 || c == Char.ofNat 12

/-- `startsW p s` : does `s` start with `p`? (`str.startswith`). -/
def startsW : List Char → List Char → Bool
  | [], _ => true
  | _ :: _, [] => false
  | a :: as, b :: bs => a == b && startsW as bs

/-- `containsSub n s` : does `n` occur as a contiguous substring of `s`?
(Python's `n in s`.) -/
def containsSub (needle : List Char) : List Char → Bool
  | [] => needle.isEmpty
  | c :: cs => startsW needle (c :: cs) || containsSub needle cs

/-- `str.lower` (ASCII case folding, as used on the ASCII request texts). -/
def lowerL (s : List Char) : List Char := s.map Char.toLower

/-- `str.upper`. -/
def upperL (s : List Char) : List Char := s.map Char.toUpper

/-- `str.strip`: drop leading and trailing whitespace. -/
def stripL (s : List Char) : List Char :=
  ((s.dropWhile isWsC).reverse.dropWhile isWsC).reverse

/-- Auxiliary word splitter: maximal runs of non-whitespace characters, with
`cur` the (reversed) word being accumulated. -/
def wordsAux (cur : List Char) : List Char → List (List Char)
  | [] => if cur = [] then [] else [cur.reverse]
  | c :: cs =>
    if isWsC c then
      if cur = [] then wordsAux [] cs else cur.reverse :: wordsAux [] cs
    else wordsAux (c :: cur) cs

/-- The whitespace-separated words of a string. -/
def pyWords (s : List Char) : List (List Char) := wordsAux [] s

/-- Join words with single spaces. -/
def joinSp : List (List Char) → List Char
  | [] => []
  | [w] => w
  | w :: ws => w ++ ' ' :: joinSp ws

/-- Model of `re.sub(r'\s+', ' ', s.strip())` — the whitespace-collapsing
step shared by both `_clean_sql_query` implementations: collapse every run of
whitespace to a single space and trim both ends.  Splitting into words and
rejoining with single spaces is exactly this transformation (leading/trailing
whitespace yields no words, inner runs separate words). -/
def collapseWs (s : List Char) : List Char := joinSp (pyWords s)

/-! ### Idempotence of whitespace collapsing -/

theorem wordsAux_sound (s : List Char) :
    ∀ cur, (∀ c ∈ cur, isWsC c = false) →
      ∀ w ∈ wordsAux cur s, w ≠ [] ∧ ∀ c ∈ w, isWsC c = false := by
  induction s with
  | nil =>
    intro cur hcur w hw
    by_cases h : cur = []
    · simp [wordsAux, h] at hw
    · rw [wordsAux, if_neg h] at hw
      rw [List.mem_singleton] at hw
      subst hw
      constructor
      · simpa using h
      · intro c hc
        exact hcur c (by simpa using hc)
  | cons c cs ih =>
    intro cur hcur w hw
    by_cases hws : isWsC c = true
    · by_cases h : cur = []
      · rw [wordsAux, if_pos hws, if_pos h] at hw
        exact ih [] (by simp) w hw
      · rw [wordsAux, if_pos hws, if_neg h] at hw
        rcases List.mem_cons.mp hw with hw | hw
        · subst hw
          refine ⟨by simpa using h, ?_⟩
          intro a ha
          exact hcur a (by simpa using ha)
        · exact ih [] (by simp) w hw
    · rw [wordsAux, if_neg hws] at hw
      refine ih (c :: cur) ?_ w hw
      intro a ha
      rcases List.mem_cons.mp ha with h | h
      · subst h; simpa using hws
      · exact hcur a h

/-- Processing a whitespace-free word prefix just accumulates it. -/
theorem wordsAux_word (w : List Char) :
    ∀ cur rest, (∀ c ∈ w, isWsC c = false) →
      wordsAux cur (w ++ rest) = wordsAux (w.reverse ++ cur) rest := by
  induction w with
  | nil => intro cur rest _; simp
  | cons c cs ih =>
    intro cur rest hw
    have hc : ¬ isWsC c = true := by simp [hw c (by simp)]
    rw [List.cons_append, wordsAux, if_neg hc]
    rw [ih (c :: cur) rest (fun a ha => hw a (by simp [ha]))]
    simp

/-- Splitting the single-space join of nonempty whitespace-free words
recovers the words. -/
theorem pyWords_joinSp (ws : List (List Char)) :
    (∀ w ∈ ws, w ≠ [] ∧ ∀ c ∈ w, isWsC c = false) →
    pyWords (joinSp ws) = ws := by
  induction ws with
  | nil => intro _; simp [pyWords, joinSp, wordsAux]
  | cons w ws ih =>
    intro hws
    obtain ⟨hne, hchars⟩ := hws w (by simp)
    cases ws with
    | nil =>
      show wordsAux [] (joinSp [w]) = [w]
      have h1 : joinSp [w] = w ++ [] := by simp [joinSp]
      rw [h1, wordsAux_word w [] [] hchars]
      have hrne : ¬ (w.reverse ++ [] : List Char) = [] := by simpa using hne
      rw [wordsAux, if_neg hrne]
      simp
    | cons w2 ws2 =>
      show wordsAux [] (joinSp (w :: w2 :: ws2)) = w :: w2 :: ws2
      have hjoin : joinSp (w :: w2 :: ws2) = w ++ ' ' :: joinSp (w2 :: ws2) := by
        simp [joinSp]
      rw [hjoin, wordsAux_word w [] (' ' :: joinSp (w2 :: ws2)) hchars]
      have hsp : isWsC ' ' = true := by decide
      have hrne : ¬ (w.reverse ++ [] : List Char) = [] := by simpa using hne
      rw [wordsAux, if_pos hsp, if_neg hrne]
      simp only [List.append_nil, List.reverse_reverse]
      congr 1
      exact ih (fun x hx => hws x (by simp [hx]))

/-- Whitespace collapsing is idempotent. -/
theorem collapseWs_idem (s : List Char) : collapseWs (collapseWs s) = collapseWs s := by
  unfold collapseWs
  rw [pyWords_joinSp (pyWords s) (wordsAux_sound s [] (by simp))]

/-! ## SQL cleaning (`LangGraphAIVisualizer._clean_sql_query`) -/

/-- Single-quote character, used to build string literals that contain it. -/
def sqChar : Char := Char.ofNat 39

/-- A single-quoted SQL string literal. -/
def quoted (s : String) : List Char := sqChar :: (s.data ++ [sqChar])

def nowIntervalTok : List Char := "NOW() - INTERVAL".data

def whereTok : List Char := "WHERE".data

def nowTok : List Char := "NOW()".data

def orderTok : List Char := "ORDER".data

/-- The replacement text of the time-filter rewrite.  Note the trailing
space, exactly as written in the source. -/
def whereReplTok : List Char := "WHERE $__timeFilter(timestamp) ".data

/-- No newline in the run (an unescaped dot of an `re` pattern does not match
a newline). -/
def noNl (l : List Char) : Bool := l.all (fun c => !(c == '\n'))

/-- Does `p` occur at index `i` of `s`? -/
def startsWAt (p s : List Char) (i : Nat) : Bool := startsW p (s.drop i)

/-- End position chosen by the lazy tail of the rewrite pattern at start
position `k`: the smallest `m ≥ k` whose lookahead holds — `ORDER` starts at
`m` or `m` is the end of the string — with no newline consumed. -/
def lazyTailEnd (s : List Char) (k : Nat) : Option Nat :=
  ((List.range (s.length + 1)).filter
    (fun m => decide (k ≤ m) && (startsWAt orderTok s m || m == s.length)
      && noNl ((s.drop k).take (m - k)))).head?

/-- End position of a match whose `WHERE` starts at `i`: the greedy middle
prefers the rightmost `NOW()` for which the lazy tail succeeds. -/
def greedyNowEnd (s : List Char) (i : Nat) : Option Nat :=
  ((List.range (s.length + 1)).reverse.filterMap (fun j =>
    if decide (i + 5 ≤ j) && startsWAt nowTok s j
        && noNl ((s.drop (i + 5)).take (j - (i + 5))) then
      lazyTailEnd s (j + 5)
    else none)).head?

/-- End position of a match of the time-filter rewrite pattern starting at
`i`, if any: `WHERE`, then anything, then `NOW()`, then lazily up to a
lookahead of `ORDER` or end of string. -/
def matchAt (s : List Char) (i : Nat) : Option Nat :=
  if startsWAt whereTok s i then greedyNowEnd s i else none

/-- Leftmost match at or after scan position `p`. -/
def findMatchFrom (s : List Char) (p : Nat) : Option (Nat × Nat) :=
  ((List.range (s.length + 1)).filterMap (fun i =>
    if decide (p ≤ i) then (matchAt s i).map (fun m => (i, m)) else none)).head?

/-- Substitution scan: emit the text up to each leftmost match, then the
replacement, and continue after the match.  `fuel` bounds the recursion; a
match is at least ten characters long, so `s.length + 1` steps suffice. -/
def reSubGo (s : List Char) : Nat → Nat → List Char
  | p, 0 => s.drop p
  | p, fuel + 1 =>
    match findMatchFrom s p with
    | none => s.drop p
    | some (i, m) => (s.drop p).take (i - p) ++ whereReplTok ++ reSubGo s m fuel

/-- Model of the source's time-filter rewrite: substitute every match of the
pattern `WHERE`-anything-`NOW()`-lazily-up-to-(`ORDER` or end) by
`WHERE $__timeFilter(timestamp) ` (with its trailing space). -/
def reSubWhereNow (s : List Char) : List Char := reSubGo s 0 (s.length + 1)

/-- `LangGraphAIVisualizer._clean_sql_query`: an empty (falsy) query maps to
the empty string; otherwise whitespace runs are collapsed and the string is
trimmed, and if the literal relative-time filter marker `NOW() - INTERVAL`
occurs, the `WHERE ... NOW() ...` region is rewritten to the time-range
placeholder form. -/
def cleanSqlQuery (q : List Char) : List Char :=
  if q = [] then []
  else
    let cleaned := collapseWs q
    if containsSub nowIntervalTok cleaned then reSubWhereNow cleaned else cleaned

/-! ## SQL validation (`LangGraphAIVisualizer._validate_sql_components`) -/

def tsAsTimeTok : List Char := "timestamp AS time".data

def timeFilterTok : List Char := "$__timeFilter(timestamp)".data

def fromTok : List Char := "FROM".data

def missingTsMsg : List Char :=
  "Missing ".data ++ quoted "timestamp AS time" ++ " requirement".data

def missingTfMsg : List Char :=
  "Missing ".data ++ quoted "$__timeFilter(timestamp)" ++ " requirement".data

def missingFromMsg : List Char := "Missing FROM clause".data

structure SqlValidation where
  valid : Bool
  errors : List (List Char)
deriving DecidableEq

/-- `LangGraphAIVisualizer._validate_sql_components`: the validation gate.
It records an error for each of three absent components — the mandated time
alias, the time-range placeholder, and a (case-insensitive) `FROM` — and is
valid exactly when no error was recorded. -/
def validateSqlComponents (q : List Char) : SqlValidation :=
  let e1 : List (List Char) := if containsSub tsAsTimeTok q then [] else [missingTsMsg]
  let e2 : List (List Char) := if containsSub timeFilterTok q then [] else [missingTfMsg]
  let e3 : List (List Char) := if containsSub fromTok (upperL q) then [] else [missingFromMsg]
  let errs := e1 ++ e2 ++ e3
  ⟨errs.isEmpty, errs⟩

/-! ## Preview-query construction
(`_preview_data_node` and `_execute_preview_query`) -/

/-- The wrapper `_preview_data_node` puts around the sanitized query:
`SELECT * FROM (query) AS preview LIMIT 5`. -/
def previewWrap (q : List Char) : List Char :=
  "SELECT * FROM (".data ++ q ++ ") AS preview LIMIT 5".data

/-- The concrete bounded interval substituted for the placeholder before the
preview executes: `timestamp >= NOW() - INTERVAL '24 hours'`. -/
def tfReplTok : List Char := "timestamp >= NOW() - INTERVAL ".data ++ quoted "24 hours"

/-- Python's `str.replace` of the time-filter placeholder with the concrete
interval: left-to-right, non-overlapping, all occurrences. -/
def replaceAllTF : List Char → List Char
  | [] => []
  | c :: cs =>
    if startsW timeFilterTok (c :: cs) then
      tfReplTok ++ replaceAllTF (cs.drop (timeFilterTok.length - 1))
    else c :: replaceAllTF cs
termination_by s => s.length
decreasing_by
· simp only [List.length_drop, List.length_cons]
  omega
· simp only [List.length_cons]
  omega

/-- `_execute_preview_query` substitutes the placeholder in its own copy of
the query before running it. -/
def substituteTimeFilter (q : List Char) : List Char := replaceAllTF q

/-! ## Claims C3 and C4 -/

/-- A concrete statement with a data-mutating keyword that nevertheless
carries all three components the gate checks. -/
def c3DropQuery : List Char :=
  "DROP TABLE users; SELECT timestamp AS time FROM t WHERE $__timeFilter(timestamp)".data

/-- Claim C3, counterexample: the validation gate, run after the cleaning
transform, accepts a statement containing the data-mutating keyword `DROP`
(and two statements rather than a single read-only `SELECT`), because it
checks only for the time alias, the placeholder, and `FROM`.  The claim that
any statement containing `INSERT|UPDATE|DELETE|DROP|ALTER|TRUNCATE` is
rejected is therefore false. -/
theorem claimC3_counterexample :
    containsSub "DROP".data (cleanSqlQuery c3DropQuery) = true ∧
    (validateSqlComponents (cleanSqlQuery c3DropQuery)).valid = true := by
  decide

/-- Claim C3, amended: the validation gate accepts a query exactly when it
contains the mandated time-column alias `timestamp AS time`, the time-range
placeholder `$__timeFilter(timestamp)`, and (case-insensitively) `FROM`; it
performs no single-read-only-`SELECT` check and no data-mutating-keyword
check.  Consequently every accepted query contains both the alias and the
placeholder, and every rejection carries the violated rule(s): the gate is
invalid exactly when its error list is non-empty. -/
theorem claimC3_amended (q : List Char) :
    ((validateSqlComponents q).valid = true ↔
      (containsSub tsAsTimeTok q = true ∧ containsSub timeFilterTok q = true ∧
        containsSub fromTok (upperL q) = true))
    ∧ ((validateSqlComponents q).valid = false ↔ (validateSqlComponents q).errors ≠ []) := by
  unfold validateSqlComponents
  by_cases h1 : containsSub tsAsTimeTok q <;>
    by_cases h2 : containsSub timeFilterTok q <;>
      by_cases h3 : containsSub fromTok (upperL q) <;>
        simp [h1, h2, h3]

/-- Claim C3, witness: the amended equivalence evaluated on a concrete
accepted query. -/
theorem claimC3_witness :
    (validateSqlComponents (cleanSqlQuery c3DropQuery)).valid = true := by
  exact (claimC3_amended (cleanSqlQuery c3DropQuery)).1.mpr (by decide)

/-- A concrete query whose relative-time filter reaches the end of the
statement, so the rewrite's replacement text ends the cleaned string with a
trailing space. -/
def c4Input : List Char :=
  "SELECT a FROM t WHERE b = 1 AND timestamp >= NOW() - INTERVAL 1".data

/-- Claim C4, counterexample: `_clean_sql_query` is not idempotent.  When the
time-filter rewrite fires and its match extends to the end of the statement,
the replacement's trailing space ends the result; a second clean trims that
space, so `clean (clean q) ≠ clean q`. -/
theorem claimC4_counterexample :
    cleanSqlQuery (cleanSqlQuery c4Input) ≠ cleanSqlQuery c4Input := by
  decide

/-- Claim C4, amended: the cleaning transform is idempotent on every input
whose whitespace-collapsed form does not contain the literal relative-time
marker `NOW() - INTERVAL`; when that marker is present and the rewrite's
match runs to the end of the statement, the first clean leaves a trailing
space that a second clean removes, so idempotence fails in general. -/
theorem claimC4_amended (q : List Char)
    (h : containsSub nowIntervalTok (collapseWs q) = false) :
    cleanSqlQuery (cleanSqlQuery q) = cleanSqlQuery q := by
  by_cases hq : q = []
  · subst hq; rfl
  · have hclean : cleanSqlQuery q = collapseWs q := by
      rw [cleanSqlQuery, if_neg hq]
      simp only [h]
      simp
    rw [hclean]
    by_cases hc : collapseWs q = []
    · rw [hc]; rfl
    · rw [cleanSqlQuery, if_neg hc]
      have h2 : containsSub nowIntervalTok (collapseWs (collapseWs q)) = false := by
        rw [collapseWs_idem]; exact h
      simp only [h2]
      simp [collapseWs_idem]

/-- Claim C4, witness: the amended idempotence applied to a concrete query
with irregular whitespace and no relative-time marker. -/
theorem claimC4_witness :
    containsSub nowIntervalTok (collapseWs "SELECT  a

   FROM t".data) = false ∧
    cleanSqlQuery (cleanSqlQuery "SELECT  a

   FROM t".data) = cleanSqlQuery "SELECT  a

   FROM t".data :=
  ⟨by decide, claimC4_amended _ (by decide)⟩

/-! ## Data sources (`_initialize_data_sources`) -/

structure DataSourceL where
  table_name : List Char
  description : List Char
  columns : List (List Char)
  time_column : List Char
deriving DecidableEq

def kwList (l : List String) : List (List Char) := l.map String.data

def settlementTable : List Char := "ercot_settlement_prices".data

def capacityTable : List Char := "ercot_capacity_monitor".data

def settlementDS : DataSourceL :=
  { table_name := settlementTable
    description := ("ERCOT settlement point prices for various hubs and load zones. " ++
      "Contains locational marginal pricing (LMP) data for energy markets, " ++
      "real-time and day-ahead pricing.").data
    columns := kwList ["timestamp", "oper_day", "interval_ending",
      "hb_busavg", "hb_houston", "hb_hubavg", "hb_north",
      "hb_pan", "hb_south", "hb_west",
      "lz_aen", "lz_cps", "lz_houston", "lz_lcra",
      "lz_north", "lz_raybn", "lz_south", "lz_west"]
    time_column := "timestamp".data }

def capacityDS : DataSourceL :=
  { table_name := capacityTable
    description := ("ERCOT grid operations, capacity monitoring, ancillary services, " ++
      "and system stress indicators. Includes reserve margins, generation capacity, " ++
      "demand response, grid stability metrics, emergency conditions, outages, " ++
      "and frequency response data.").data
    columns := kwList ["timestamp", "category", "subcategory", "value", "unit"]
    time_column := "timestamp".data }

/-- The static catalog loaded into the state by `_parse_request_node`. -/
def availableDataSources : List DataSourceL := [settlementDS, capacityDS]

/-! ## Data-source resolution (`_analyze_data_sources_node`,
`_ai_analyze_data_source`) -/

def capacityKeywords : List (List Char) := kwList [
  "capacity", "reserve", "ancillary", "stress", "grid stress", "system stress",
  "demand", "load", "generation", "responsive", "regulation", "contingency",
  "spinning", "non-spin", "emergency", "outage", "availability", "margin",
  "reliability", "stability", "frequency response", "volt", "reactive"]

def priceKeywords : List (List Char) := kwList [
  "price", "pricing", "settlement", "hub", "cost", "market", "clearing",
  "locational marginal", "lmp", "energy price", "real time", "day ahead"]

/-- The keyword set of the AI-assisted classifier's current pattern-matching
implementation (`_ai_analyze_data_source`). -/
def aiCapacityWords : List (List Char) := kwList [
  "stress", "capacity", "reserve", "grid", "system", "stability",
  "emergency", "outage", "regulation", "frequency", "demand", "load"]

/-- Does any keyword of the set occur in the text? -/
def anyKw (kws : List (List Char)) (t : List Char) : Bool :=
  kws.any (fun k => containsSub k t)

def findSource (l : List DataSourceL) (name : List Char) : Option DataSourceL :=
  l.find? (fun ds => ds.table_name == name)

/-- `_ai_analyze_data_source`: the AI-assisted fallback classifier, currently
implemented by pattern matching; it lowercases its argument again.  `none`
models the caught-exception path (which the caller turns into the
default-to-capacity fallback). -/
def aiAnalyzeDataSource (t : List Char) (avail : List DataSourceL) : Option DataSourceL :=
  if anyKw aiCapacityWords (lowerL t) then findSource avail capacityTable
  else findSource avail settlementTable

/-- The selection logic of `_analyze_data_sources_node` on the lowered
request text: capacity keywords first, then price keywords, then the
AI-assisted classifier, then the documented default to the capacity source.
`none` models the caught-`StopIteration` path, which the node turns into a
failure. -/
def resolveSource (lower : List Char) (avail : List DataSourceL) : Option DataSourceL :=
  if anyKw capacityKeywords lower then findSource avail capacityTable
  else if anyKw priceKeywords lower then findSource avail settlementTable
  else
    match aiAnalyzeDataSource lower avail with
    | some ds => some ds
    | none => findSource avail capacityTable

/-! ## Visualization-type detection (`_detect_visualization_type_node`) -/

/-- The explicit chart-type keyword table, in the source's (insertion)
order. -/
def vizPatterns : List (List Char × List (List Char)) := [
  ("bar".data, kwList ["bar chart", "bar graph", "bars", "column chart", "histogram"]),
  ("line".data, kwList ["line chart", "line graph", "time series", "trend", "over time"]),
  ("area".data, kwList ["area chart", "filled chart", "area graph"]),
  ("scatter".data, kwList ["scatter plot", "scatter chart", "correlation", "relationship"]),
  ("pie".data, kwList ["pie chart", "donut", "distribution", "breakdown", "percentage"]),
  ("gauge".data, kwList ["gauge", "meter", "dial", "speedometer"]),
  ("table".data, kwList ["table", "list", "tabular", "data table"]),
  ("heatmap".data, kwList ["heatmap", "heat map", "intensity", "correlation matrix"]),
  ("stat".data, kwList ["stat", "single value", "metric", "number", "current value"]),
  ("timeseries".data, kwList ["timeseries", "time series", "timeline", "historical", "over time"])]

def compareWords : List (List Char) := kwList ["compare", "vs", "versus", "against"]

def currentWords : List (List Char) := kwList ["current", "now", "latest", "today"]

def trendWords : List (List Char) := kwList ["trend", "change", "evolution", "history"]

/-- `_detect_visualization_type_node`'s selection: the first pattern with a
matching keyword wins (confidence 0.9, above the 0.8 threshold); otherwise
the smart defaults run (comparison context, current-value context, trend
context) and the final default is `timeseries`. -/
def detectVizType (lower : List Char) : List Char :=
  match (vizPatterns.find? (fun p => p.2.any (fun k => containsSub k lower))).map Prod.fst with
  | some t => t
  | none =>
    if anyKw compareWords lower then "bar".data
    else if anyKw currentWords lower then "stat".data
    else if anyKw trendWords lower then "timeseries".data
    else "timeseries".data

/-! ## Rule-based fallback query generation (`_generate_fallback_query`) -/

structure GenOut where
  sql : List Char
  chartType : List Char
  title : List Char
deriving DecidableEq

/-- A hub query over the settlement-price table. -/
def hubSql (col label : String) : List Char :=
  ("SELECT timestamp AS time, " ++ col ++ " AS \"" ++ label ++
    "\" FROM ercot_settlement_prices WHERE $__timeFilter(timestamp) ORDER BY timestamp").data

/-- A capacity-monitor query filtered to one category/subcategory pair. -/
def capSql (label cat subcat : String) : List Char :=
  ("SELECT timestamp AS time, value AS \"" ++ label ++
    "\" FROM ercot_capacity_monitor WHERE category = ").data ++
  quoted cat ++ " AND subcategory = ".data ++ quoted subcat ++
  " AND $__timeFilter(timestamp) ORDER BY timestamp".data

def allHubsSql : List Char :=
  ("SELECT timestamp AS time, hb_houston AS \"Houston Hub\", hb_north AS \"North Hub\", " ++
    "hb_south AS \"South Hub\", hb_west AS \"West Hub\" FROM ercot_settlement_prices " ++
    "WHERE $__timeFilter(timestamp) ORDER BY timestamp").data

def finalFallbackSql : List Char :=
  ("SELECT timestamp AS time, value AS \"Value\" FROM ercot_capacity_monitor " ++
    "WHERE $__timeFilter(timestamp) ORDER BY timestamp LIMIT 1000").data

def tsT : List Char := "timeseries".data

/-- `_generate_fallback_query`: the deterministic keyword-to-template
mapping, per data source. -/
def generateFallbackQuery (text : List Char) (ds : DataSourceL) : GenOut :=
  let lower := lowerL text
  if ds.table_name = settlementTable then
    if containsSub "houston".data lower then
      ⟨hubSql "hb_houston" "Houston Hub Price", tsT, "Houston Hub Settlement Prices".data⟩
    else if containsSub "north".data lower then
      ⟨hubSql "hb_north" "North Hub Price", tsT, "North Hub Settlement Prices".data⟩
    else if containsSub "south".data lower then
      ⟨hubSql "hb_south" "South Hub Price", tsT, "South Hub Settlement Prices".data⟩
    else if containsSub "west".data lower then
      ⟨hubSql "hb_west" "West Hub Price", tsT, "West Hub Settlement Prices".data⟩
    else
      ⟨allHubsSql, tsT, "ERCOT Settlement Point Prices".data⟩
  else if ds.table_name = capacityTable then
    if anyKw (kwList ["stress", "grid stress", "system stress", "strain"]) lower then
      ⟨capSql "Available Capacity to Increase (MW)" "System Available Capacity (MW)"
        "Capacity available to increase Generation Resource Base Points in the next 5 minutes in SCED (HDL)",
        tsT, "Grid Stress - Available Generation Capacity".data⟩
    else if anyKw (kwList ["reserve", "margin", "contingency"]) lower then
      ⟨capSql "Responsive Reserve (MW)" "Responsive Reserve Capacity (MW)" "Generation Resources",
        tsT, "Reserve Margin - Generation Resources".data⟩
    else if anyKw (kwList ["emergency", "outage", "emr", "out"]) lower then
      ⟨capSql "Emergency/Outage Capacity (MW)" "EMR, OUT, and OUTL Capacity (MW)"
        "Aggregate telemetered HSL capacity for Resources with a telemetered Resource Status of EMR",
        tsT, "Emergency and Outage Conditions".data⟩
    else if anyKw (kwList ["regulation", "frequency", "freq"]) lower then
      ⟨capSql "Regulation Up (MW)" "Regulation Capacity (MW)" "Deployed Reg-Up",
        tsT, "Frequency Regulation - Deployed Up".data⟩
    else if anyKw (kwList ["spin", "spinning", "non-spin"]) lower then
      ⟨capSql "Non-Spin Reserve (MW)" "Non-Spin Reserve Capacity (MW)"
        "On-Line Generation Resources with Output Schedules",
        tsT, "Non-Spinning Reserve Capacity".data⟩
    else if anyKw (kwList ["demand", "curve", "operating"]) lower then
      ⟨capSql "Operating Reserve (MW)" "Real-Time Operating Reserve Demand Curve Capacity (MW)"
        "Real-Time On-Line reserve capacity",
        tsT, "Real-Time Operating Reserve".data⟩
    else
      ⟨capSql "Available Increase Capacity (MW)" "System Available Capacity (MW)"
        "Capacity available to increase Generation Resource Base Points in the next 5 minutes in SCED (HDL)",
        tsT, "System Available Capacity Overview".data⟩
  else
    ⟨finalFallbackSql, tsT, "ERCOT Data Overview".data⟩

/-! ## Pipeline state (`AIVisualizationState`) and workflow
(`_build_workflow`, the node methods, and the conditional edges) -/

inductive Status
  | processing
  | completed
  | failed
deriving DecidableEq

/-- The workflow nodes, used to record which nodes a run executed. -/
inductive Stage
  | parse
  | detect
  | analyze
  | generate
  | validate
  | preview
  | build
  | deploy
  | store
  | handleError
deriving DecidableEq

/-- A preview result row (`RealDictCursor` row: column name to rendered
value). -/
abbrev PreviewRow := List (List Char × List Char)

/-- The claim-relevant fields of the dashboard configuration built by
`_build_dashboard_node`: the panel's `rawSql` and the panel type/format
chosen by `_get_panel_config_for_type`.  The static `fieldConfig`/`options`
JSON blobs are elided. -/
structure DashboardCfg where
  rawSql : List Char
  panelType : List Char
  panelFormat : List Char
deriving DecidableEq

structure PState where
  user_id : Nat
  request_text : List Char
  visualization_type : List Char
  available_data_sources : List DataSourceL
  selected_data_source : Option DataSourceL
  raw_sql_query : Option (List Char)
  cleaned_sql_query : Option (List Char)
  chart_type : Option (List Char)
  chart_title : Option (List Char)
  detected_visualization_type : Option (List Char)
  sql_validation_result : Option SqlValidation
  data_preview : Option (List PreviewRow)
  dashboard_config : Option DashboardCfg
  dashboard_uid : Option (List Char)
  iframe_url : Option (List Char)
  errors : List (List Char)
  status : Status
  visualization_id : Option Nat

/-- A parsed Bedrock response (`_call_bedrock_ai` result): the `sql_query`
value (empty for missing/falsy) and the optional `chart_type`/`title`
fields. -/
structure BedrockResp where
  sql : List Char
  chartType : Option (List Char)
  title : Option (List Char)

/-- A Grafana dashboard-creation HTTP response: transport status code and
the `uid` of the response body. -/
structure GrafanaHttp where
  statusCode : Nat
  uid : List Char
deriving DecidableEq

/-- The external effects of one pipeline run.  `bedrock = none` is a failed
or unparsable LLM call; `db q = none` is a preview-execution exception;
`grafana = none` is a transport exception of the deployment call;
`storeViz = none` is a visualization-record insert failure, and
`addDashOk = false` means the panel-binding insert raised (for example a
unique-constraint violation). -/
structure Oracle where
  bedrock : Option BedrockResp
  db : List Char → Option (List PreviewRow)
  grafana : Option GrafanaHttp
  storeViz : Option Nat
  addDashOk : Bool

/-- Python truthiness of an optional string state field. -/
def truthyStr : Option (List Char) → Bool
  | some (_ :: _) => true
  | _ => false

/-- Python truthiness of the optional preview-row list. -/
def truthyRows : Option (List PreviewRow) → Bool
  | some (_ :: _) => true
  | _ => false

def optStr : Option (List Char) → List Char
  | some s => s
  | none => []

def tooShortMsg : List Char := "Request text is too short or empty".data

/-- Error of the caught-exception path of `_analyze_data_sources_node`
(the Python message appends the exception's text). -/
def dsAnalysisFailedMsg : List Char := "Data source analysis failed".data

/-- Error of the caught-exception path of `_generate_query_node`. -/
def genFailedMsg : List Char := "Query generation failed".data

/-- Error of a validation rejection (the Python message appends the list of
violated rules held in the validation result). -/
def sqlValFailedMsg : List Char := "SQL validation failed".data

def previewNoResultsMsg : List Char := "Data preview returned no results".data

/-- Error of a transport exception of the deployment call. -/
def grafanaExcMsg : List Char := "Grafana deployment failed".data

/-- Error of a non-200 deployment response; it carries the transport
status. -/
def grafanaHttpMsg (code : Nat) : List Char :=
  "Grafana deployment failed: HTTP ".data ++ (Nat.repr code).data

/-- Error of the caught-exception path of `_store_results_node`. -/
def storeFailedMsg : List Char := "Result storage failed".data

/-- The default of the `GRAFANA_EXTERNAL_URL` environment variable. -/
def grafanaExternalUrl : List Char := "http://localhost:3000".data

def mkIframeUrl (uid : List Char) : List Char :=
  grafanaExternalUrl ++ "/d-solo/".data ++ uid ++ "?orgId=1&panelId=1&refresh=30s&kiosk".data

/-- The initial state built by `process_visualization_request`. -/
def initState (uid : Nat) (text vtype : List Char) : PState :=
  { user_id := uid, request_text := text, visualization_type := vtype,
    available_data_sources := [], selected_data_source := none,
    raw_sql_query := none, cleaned_sql_query := none, chart_type := none,
    chart_title := none, detected_visualization_type := none,
    sql_validation_result := none, data_preview := none,
    dashboard_config := none, dashboard_uid := none, iframe_url := none,
    errors := [], status := Status.processing, visualization_id := none }

/-- `_parse_request_node`: reject empty or too-short (stripped length below
3) request text, otherwise load the static catalog into the state. -/
def parseRequestNode (st : PState) : PState :=
  if st.request_text = [] ∨ (stripL st.request_text).length < 3 then
    { st with errors := st.errors ++ [tooShortMsg], status := Status.failed }
  else
    { st with available_data_sources := availableDataSources }

/-- `_detect_visualization_type_node`: always sets the detected type; it
never fails. -/
def detectVisualizationTypeNode (st : PState) : PState :=
  let d := detectVizType (lowerL st.request_text)
  { st with detected_visualization_type := some d, chart_type := some d }

/-- `_analyze_data_sources_node`. -/
def analyzeDataSourcesNode (st : PState) : PState :=
  match resolveSource (lowerL st.request_text) st.available_data_sources with
  | some ds => { st with selected_data_source := some ds }
  | none => { st with errors := st.errors ++ [dsAnalysisFailedMsg], status := Status.failed }

/-- The query/chart-type/title chosen by `_generate_query_node`: the Bedrock
response when it parsed and carries a truthy `sql_query` (with the source's
defaults for the optional fields), the rule-based fallback otherwise. -/
def genResult (b : Option BedrockResp) (text : List Char) (ds : DataSourceL) : GenOut :=
  match b with
  | some r =>
    if r.sql ≠ [] then ⟨r.sql, r.chartType.getD tsT, r.title.getD "AI Generated Chart".data⟩
    else generateFallbackQuery text ds
  | none => generateFallbackQuery text ds

/-- `_generate_query_node`.  With no selected data source the node hits the
caught-exception path (building the AI context dereferences the source)
before any LLM call. -/
def generateQueryNode (o : Oracle) (st : PState) : PState :=
  match st.selected_data_source with
  | none => { st with errors := st.errors ++ [genFailedMsg], status := Status.failed }
  | some ds =>
    let g := genResult o.bedrock st.request_text ds
    { st with
        raw_sql_query := some g.sql
        chart_type := some g.chartType
        chart_title := some g.title }

/-- `_validate_query_node`: clean, then gate. -/
def validateQueryNode (st : PState) : PState :=
  let cleaned := cleanSqlQuery (optStr st.raw_sql_query)
  let v := validateSqlComponents cleaned
  if v.valid then
    { st with cleaned_sql_query := some cleaned, sql_validation_result := some v }
  else
    { st with errors := st.errors ++ [sqlValFailedMsg], status := Status.failed }

/-- `_preview_data_node` together with `_execute_preview_query`: the wrapped
query, with the placeholder substituted, goes to the store; an execution
error (`none`) or an empty row list is a stage failure. -/
def previewDataNode (o : Oracle) (st : PState) : PState :=
  match o.db (substituteTimeFilter (previewWrap (optStr st.cleaned_sql_query))) with
  | some (r :: rs) => { st with data_preview := some (r :: rs) }
  | _ => { st with errors := st.errors ++ [previewNoResultsMsg], status := Status.failed }

/-- `_get_panel_config_for_type`: the chart-type dispatch (visual type and
target format; the static field/option blocks are elided). -/
structure PanelCfg where
  ptype : List Char
  pformat : List Char
deriving DecidableEq

def getPanelConfigForType (ct : List Char) : PanelCfg :=
  if ct = "bar".data then ⟨"barchart".data, "time_series".data⟩
  else if ct = "stat".data then ⟨"stat".data, "time_series".data⟩
  else if ct = "gauge".data then ⟨"gauge".data, "time_series".data⟩
  else if ct = "table".data then ⟨"table".data, "table".data⟩
  else if ct = "area".data then ⟨"timeseries".data, "time_series".data⟩
  else ⟨"timeseries".data, "time_series".data⟩

/-- `_build_dashboard_node`: the panel's `rawSql` is the sanitized query,
unchanged. -/
def buildDashboardNode (st : PState) : PState :=
  let pc := getPanelConfigForType (optStr st.chart_type)
  { st with
      dashboard_config := some ⟨optStr st.cleaned_sql_query, pc.ptype, pc.pformat⟩ }

/-- `_deploy_grafana_node`: exactly HTTP 200 is success; any other status
fails the stage with an error carrying the status, recording no uid and no
embed URL. -/
def deployGrafanaNode (resp : Option GrafanaHttp) (st : PState) : PState :=
  match resp with
  | none => { st with errors := st.errors ++ [grafanaExcMsg], status := Status.failed }
  | some r =>
    if r.statusCode = 200 then
      { st with dashboard_uid := some r.uid, iframe_url := some (mkIframeUrl r.uid) }
    else
      { st with
          errors := st.errors ++ [grafanaHttpMsg r.statusCode]
          status := Status.failed }

/-- `_store_results_node`: the visualization id is recorded before the
dashboard-binding insert, so a binding failure leaves the id in the state. -/
def storeResultsNode (o : Oracle) (st : PState) : PState :=
  match o.storeViz with
  | none => { st with errors := st.errors ++ [storeFailedMsg], status := Status.failed }
  | some vid =>
    if o.addDashOk then
      { st with visualization_id := some vid, status := Status.completed }
    else
      { st with
          visualization_id := some vid
          errors := st.errors ++ [storeFailedMsg]
          status := Status.failed }

/-- `_handle_error_node` (the error-record write is external). -/
def handleErrorNode (st : PState) : PState := { st with status := Status.failed }

/-- `_should_validate_query`: `true` means route to validation. -/
def shouldValidate (st : PState) : Bool :=
  !(st.status == Status.failed) && truthyStr st.raw_sql_query

/-- `_should_preview_data`. -/
def shouldPreview (st : PState) : Bool :=
  !(st.status == Status.failed) && truthyStr st.cleaned_sql_query

/-- `_should_build_dashboard`. -/
def shouldBuild (st : PState) : Bool :=
  !(st.status == Status.failed) && truthyRows st.data_preview

/-- `_should_store_results`. -/
def shouldStore (st : PState) : Bool :=
  !(st.status == Status.failed) && truthyStr st.dashboard_uid

/-- The unconditional head of the graph: parse, detect, analyze, generate
run in sequence with no gate between them. -/
def stage4 (o : Oracle) (uid : Nat) (text vtype : List Char) : PState :=
  generateQueryNode o (analyzeDataSourcesNode
    (detectVisualizationTypeNode (parseRequestNode (initState uid text vtype))))

def preTrace : List Stage := [Stage.parse, Stage.detect, Stage.analyze, Stage.generate]

/-- One run of the compiled graph: the node sequence of `_build_workflow`,
with each conditional edge routing to the next node or to the error handler.
The second component records the nodes executed. -/
def runPipeline (o : Oracle) (uid : Nat) (text vtype : List Char) :
    PState × List Stage :=
  let s4 := stage4 o uid text vtype
  if shouldValidate s4 then
    let s5 := validateQueryNode s4
    if shouldPreview s5 then
      let s6 := previewDataNode o s5
      if shouldBuild s6 then
        let s8 := deployGrafanaNode o.grafana (buildDashboardNode s6)
        if shouldStore s8 then
          (storeResultsNode o s8,
            preTrace ++ [Stage.validate, Stage.preview, Stage.build, Stage.deploy, Stage.store])
        else
          (handleErrorNode s8,
            preTrace ++ [Stage.validate, Stage.preview, Stage.build, Stage.deploy,
              Stage.handleError])
      else
        (handleErrorNode s6, preTrace ++ [Stage.validate, Stage.preview, Stage.handleError])
    else
      (handleErrorNode s5, preTrace ++ [Stage.validate, Stage.handleError])
  else
    (handleErrorNode s4, preTrace ++ [Stage.handleError])

/-! ## Helper lemmas about the pipeline -/

theorem truthyStr_iff (x : Option (List Char)) :
    truthyStr x = true ↔ ∃ c cs, x = some (c :: cs) := by
  cases x with
  | none => simp [truthyStr]
  | some l => cases l with
    | nil => simp [truthyStr]
    | cons c cs => simp [truthyStr]

theorem truthyRows_iff (x : Option (List PreviewRow)) :
    truthyRows x = true ↔ ∃ r rs, x = some (r :: rs) := by
  cases x with
  | none => simp [truthyRows]
  | some l => cases l with
    | nil => simp [truthyRows]
    | cons r rs => simp [truthyRows]

theorem shouldValidate_iff (st : PState) :
    shouldValidate st = true ↔
      st.status ≠ Status.failed ∧ truthyStr st.raw_sql_query = true := by
  simp [shouldValidate]

theorem shouldPreview_iff (st : PState) :
    shouldPreview st = true ↔
      st.status ≠ Status.failed ∧ truthyStr st.cleaned_sql_query = true := by
  simp [shouldPreview]

theorem shouldBuild_iff (st : PState) :
    shouldBuild st = true ↔
      st.status ≠ Status.failed ∧ truthyRows st.data_preview = true := by
  simp [shouldBuild]

theorem shouldStore_iff (st : PState) :
    shouldStore st = true ↔
      st.status ≠ Status.failed ∧ truthyStr st.dashboard_uid = true := by
  simp [shouldStore]

/-- A nonempty needle occurs only in a nonempty haystack. -/
theorem containsSub_ne_nil (n : List Char) (hn : n ≠ []) (l : List Char)
    (h : containsSub n l = true) : l ≠ [] := by
  intro hl
  subst hl
  simp [containsSub, List.isEmpty_iff] at h
  exact hn h

/-- A valid validation result means all three components are present. -/
theorem validateSqlComponents_valid (q : List Char)
    (h : (validateSqlComponents q).valid = true) :
    containsSub tsAsTimeTok q = true ∧ containsSub timeFilterTok q = true ∧
      containsSub fromTok (upperL q) = true :=
  (claimC3_amended q).1.mp h

theorem generateFallbackQuery_sql_ne_nil (text : List Char) (ds : DataSourceL) :
    (generateFallbackQuery text ds).sql ≠ [] := by
  unfold generateFallbackQuery
  dsimp only
  repeat' split
  all_goals decide

theorem genResult_sql_ne_nil (b : Option BedrockResp) (text : List Char) (ds : DataSourceL) :
    (genResult b text ds).sql ≠ [] := by
  unfold genResult
  cases b with
  | none => exact generateFallbackQuery_sql_ne_nil text ds
  | some r =>
    dsimp only
    by_cases h : r.sql ≠ []
    · rw [if_pos h]; exact h
    · rw [if_neg h]; exact generateFallbackQuery_sql_ne_nil text ds

/-- States whose failure always carries at least one error. -/
def ErrOk (st : PState) : Prop := st.status = Status.failed → st.errors ≠ []

theorem errOk_parse (st : PState) (h : ErrOk st) : ErrOk (parseRequestNode st) := by
  unfold parseRequestNode
  split
  · intro _; simp
  · exact h

theorem errOk_detect (st : PState) (h : ErrOk st) :
    ErrOk (detectVisualizationTypeNode st) := by
  unfold detectVisualizationTypeNode
  exact h

theorem errOk_analyze (st : PState) (h : ErrOk st) : ErrOk (analyzeDataSourcesNode st) := by
  unfold analyzeDataSourcesNode
  cases resolveSource (lowerL st.request_text) st.available_data_sources with
  | some ds => exact h
  | none => intro _; simp

theorem errOk_generate (o : Oracle) (st : PState) (h : ErrOk st) :
    ErrOk (generateQueryNode o st) := by
  unfold generateQueryNode
  cases st.selected_data_source with
  | none => intro _; simp
  | some ds => exact h

theorem errOk_stage4 (o : Oracle) (uid : Nat) (text vtype : List Char) :
    ErrOk (stage4 o uid text vtype) := by
  unfold stage4
  apply errOk_generate
  apply errOk_analyze
  apply errOk_detect
  apply errOk_parse
  intro h
  exact absurd h (by simp [initState])

/-- After the unconditional head of the graph, a non-failed state carries a
nonempty generated query (the Bedrock branch requires one, and every
rule-based fallback template is nonempty). -/
theorem stage4_raw (o : Oracle) (uid : Nat) (text vtype : List Char)
    (h : (stage4 o uid text vtype).status ≠ Status.failed) :
    truthyStr (stage4 o uid text vtype).raw_sql_query = true := by
  unfold stage4 generateQueryNode at *
  cases hsel : (analyzeDataSourcesNode (detectVisualizationTypeNode
      (parseRequestNode (initState uid text vtype)))).selected_data_source with
  | none => rw [hsel] at h; exact absurd rfl h
  | some ds =>
    dsimp only
    rw [truthyStr_iff]
    obtain ⟨c, cs, hcc⟩ := List.exists_cons_of_ne_nil (genResult_sql_ne_nil o.bedrock
      (analyzeDataSourcesNode (detectVisualizationTypeNode
        (parseRequestNode (initState uid text vtype)))).request_text ds)
    exact ⟨c, cs, by rw [hcc]⟩

/-! ### Branch equations for the gated nodes -/

theorem validateQueryNode_valid (st : PState)
    (h : (validateSqlComponents (cleanSqlQuery (optStr st.raw_sql_query))).valid = true) :
    validateQueryNode st = { st with
      cleaned_sql_query := some (cleanSqlQuery (optStr st.raw_sql_query))
      sql_validation_result :=
        some (validateSqlComponents (cleanSqlQuery (optStr st.raw_sql_query))) } := by
  unfold validateQueryNode
  dsimp only
  rw [if_pos h]

theorem validateQueryNode_invalid (st : PState)
    (h : (validateSqlComponents (cleanSqlQuery (optStr st.raw_sql_query))).valid = false) :
    validateQueryNode st =
      { st with errors := st.errors ++ [sqlValFailedMsg], status := Status.failed } := by
  unfold validateQueryNode
  dsimp only
  rw [if_neg (by simp [h])]

theorem previewDataNode_none (o : Oracle) (st : PState)
    (h : o.db (substituteTimeFilter (previewWrap (optStr st.cleaned_sql_query))) = none) :
    previewDataNode o st =
      { st with errors := st.errors ++ [previewNoResultsMsg], status := Status.failed } := by
  unfold previewDataNode
  rw [h]

theorem previewDataNode_nilRows (o : Oracle) (st : PState)
    (h : o.db (substituteTimeFilter (previewWrap (optStr st.cleaned_sql_query))) = some []) :
    previewDataNode o st =
      { st with errors := st.errors ++ [previewNoResultsMsg], status := Status.failed } := by
  unfold previewDataNode
  rw [h]

theorem previewDataNode_rows (o : Oracle) (st : PState) (r : PreviewRow) (rs : List PreviewRow)
    (h : o.db (substituteTimeFilter (previewWrap (optStr st.cleaned_sql_query))) = some (r :: rs)) :
    previewDataNode o st = { st with data_preview := some (r :: rs) } := by
  unfold previewDataNode
  rw [h]

theorem buildDashboardNode_eq (st : PState) :
    buildDashboardNode st = { st with
      dashboard_config := some ⟨optStr st.cleaned_sql_query,
        (getPanelConfigForType (optStr st.chart_type)).ptype,
        (getPanelConfigForType (optStr st.chart_type)).pformat⟩ } := rfl

theorem deployGrafanaNode_none (st : PState) :
    deployGrafanaNode none st =
      { st with errors := st.errors ++ [grafanaExcMsg], status := Status.failed } := rfl

theorem deployGrafanaNode_200 (r : GrafanaHttp) (st : PState) (h : r.statusCode = 200) :
    deployGrafanaNode (some r) st =
      { st with dashboard_uid := some r.uid, iframe_url := some (mkIframeUrl r.uid) } := by
  unfold deployGrafanaNode
  dsimp only
  rw [if_pos h]

theorem deployGrafanaNode_non200 (r : GrafanaHttp) (st : PState) (h : r.statusCode ≠ 200) :
    deployGrafanaNode (some r) st = { st with
      errors := st.errors ++ [grafanaHttpMsg r.statusCode]
      status := Status.failed } := by
  unfold deployGrafanaNode
  dsimp only
  rw [if_neg h]

theorem storeResultsNode_none (o : Oracle) (st : PState) (h : o.storeViz = none) :
    storeResultsNode o st =
      { st with errors := st.errors ++ [storeFailedMsg], status := Status.failed } := by
  unfold storeResultsNode
  rw [h]

theorem storeResultsNode_ok (o : Oracle) (st : PState) (vid : Nat)
    (h : o.storeViz = some vid) (ha : o.addDashOk = true) :
    storeResultsNode o st =
      { st with visualization_id := some vid, status := Status.completed } := by
  unfold storeResultsNode
  rw [h]
  dsimp only
  rw [if_pos ha]

theorem storeResultsNode_addFail (o : Oracle) (st : PState) (vid : Nat)
    (h : o.storeViz = some vid) (ha : o.addDashOk = false) :
    storeResultsNode o st = { st with
      visualization_id := some vid
      errors := st.errors ++ [storeFailedMsg]
      status := Status.failed } := by
  unfold storeResultsNode
  rw [h]
  dsimp only
  rw [if_neg (by simp [ha])]

/-! ### Fields untouched by the unconditional head of the graph -/

theorem parse_keeps (st : PState) :
    (parseRequestNode st).cleaned_sql_query = st.cleaned_sql_query ∧
    (parseRequestNode st).sql_validation_result = st.sql_validation_result ∧
    (parseRequestNode st).data_preview = st.data_preview ∧
    (parseRequestNode st).dashboard_config = st.dashboard_config ∧
    (parseRequestNode st).dashboard_uid = st.dashboard_uid := by
  unfold parseRequestNode
  split <;> exact ⟨rfl, rfl, rfl, rfl, rfl⟩

theorem detect_keeps (st : PState) :
    (detectVisualizationTypeNode st).cleaned_sql_query = st.cleaned_sql_query ∧
    (detectVisualizationTypeNode st).sql_validation_result = st.sql_validation_result ∧
    (detectVisualizationTypeNode st).data_preview = st.data_preview ∧
    (detectVisualizationTypeNode st).dashboard_config = st.dashboard_config ∧
    (detectVisualizationTypeNode st).dashboard_uid = st.dashboard_uid :=
  ⟨rfl, rfl, rfl, rfl, rfl⟩

theorem analyze_keeps (st : PState) :
    (analyzeDataSourcesNode st).cleaned_sql_query = st.cleaned_sql_query ∧
    (analyzeDataSourcesNode st).sql_validation_result = st.sql_validation_result ∧
    (analyzeDataSourcesNode st).data_preview = st.data_preview ∧
    (analyzeDataSourcesNode st).dashboard_config = st.dashboard_config ∧
    (analyzeDataSourcesNode st).dashboard_uid = st.dashboard_uid := by
  unfold analyzeDataSourcesNode
  cases resolveSource (lowerL st.request_text) st.available_data_sources <;>
    exact ⟨rfl, rfl, rfl, rfl, rfl⟩

theorem generate_keeps (o : Oracle) (st : PState) :
    (generateQueryNode o st).cleaned_sql_query = st.cleaned_sql_query ∧
    (generateQueryNode o st).sql_validation_result = st.sql_validation_result ∧
    (generateQueryNode o st).data_preview = st.data_preview ∧
    (generateQueryNode o st).dashboard_config = st.dashboard_config ∧
    (generateQueryNode o st).dashboard_uid = st.dashboard_uid := by
  unfold generateQueryNode
  cases st.selected_data_source <;> exact ⟨rfl, rfl, rfl, rfl, rfl⟩

/-- The head of the graph never touches the validation, preview, dashboard
or uid fields: after `generate_query` they are still unset. -/
theorem stage4_untouched (o : Oracle) (uid : Nat) (text vtype : List Char) :
    (stage4 o uid text vtype).cleaned_sql_query = none ∧
    (stage4 o uid text vtype).sql_validation_result = none ∧
    (stage4 o uid text vtype).data_preview = none ∧
    (stage4 o uid text vtype).dashboard_config = none ∧
    (stage4 o uid text vtype).dashboard_uid = none := by
  unfold stage4
  obtain ⟨g1, g2, g3, g4, g5⟩ := generate_keeps o (analyzeDataSourcesNode
    (detectVisualizationTypeNode (parseRequestNode (initState uid text vtype))))
  obtain ⟨a1, a2, a3, a4, a5⟩ := analyze_keeps
    (detectVisualizationTypeNode (parseRequestNode (initState uid text vtype)))
  obtain ⟨d1, d2, d3, d4, d5⟩ := detect_keeps (parseRequestNode (initState uid text vtype))
  obtain ⟨p1, p2, p3, p4, p5⟩ := parse_keeps (initState uid text vtype)
  refine ⟨?_, ?_, ?_, ?_, ?_⟩
  · rw [g1, a1, d1, p1]; rfl
  · rw [g2, a2, d2, p2]; rfl
  · rw [g3, a3, d3, p3]; rfl
  · rw [g4, a4, d4, p4]; rfl
  · rw [g5, a5, d5, p5]; rfl

/-! ### Progress lemmas: a true gate forces the success branch -/

theorem validate_progress (st : PState)
    (h : shouldPreview (validateQueryNode st) = true) :
    (validateSqlComponents (cleanSqlQuery (optStr st.raw_sql_query))).valid = true := by
  by_contra hv
  rw [validateQueryNode_invalid st (Bool.eq_false_iff.mpr hv)] at h
  rw [shouldPreview_iff] at h
  exact h.1 rfl

theorem preview_progress (o : Oracle) (st : PState)
    (h : shouldBuild (previewDataNode o st) = true) :
    ∃ p ps, o.db (substituteTimeFilter (previewWrap (optStr st.cleaned_sql_query)))
      = some (p :: ps) := by
  cases hdb : o.db (substituteTimeFilter (previewWrap (optStr st.cleaned_sql_query))) with
  | none =>
    rw [previewDataNode_none o st hdb, shouldBuild_iff] at h
    exact absurd rfl h.1
  | some l =>
    cases l with
    | nil =>
      rw [previewDataNode_nilRows o st hdb, shouldBuild_iff] at h
      exact absurd rfl h.1
    | cons p ps => exact ⟨p, ps, rfl⟩

theorem deploy_progress (g : Option GrafanaHttp) (st : PState)
    (h : shouldStore (deployGrafanaNode g st) = true) :
    ∃ r, g = some r ∧ r.statusCode = 200 := by
  cases g with
  | none =>
    rw [deployGrafanaNode_none, shouldStore_iff] at h
    exact absurd rfl h.1
  | some r =>
    by_cases h200 : r.statusCode = 200
    · exact ⟨r, rfl, h200⟩
    · rw [deployGrafanaNode_non200 r st h200, shouldStore_iff] at h
      exact absurd rfl h.1

/-! ### The master characterization of one run -/

/-- Facts about the final state and the executed-node trace of a run:
(1) a completed run carries a nonempty sanitized query, nonempty preview
rows, and a nonempty dashboard uid;
(2) provided a 200 deployment response never carries an empty uid, a failed
run carries at least one error;
(3) a built dashboard configuration carries as its `rawSql` exactly the
state's sanitized query, which passed the validation gate;
(4) an issued dashboard uid implies the run executed both the validation and
the preview nodes, with a valid validation result and nonempty preview
rows. -/
theorem run_master (o : Oracle) (uid : Nat) (text vtype : List Char) :
    ((runPipeline o uid text vtype).1.status = Status.completed →
      (∃ c cs, (runPipeline o uid text vtype).1.cleaned_sql_query = some (c :: cs)) ∧
      (∃ p ps, (runPipeline o uid text vtype).1.data_preview = some (p :: ps)) ∧
      (∃ u us, (runPipeline o uid text vtype).1.dashboard_uid = some (u :: us)))
    ∧ ((∀ r : GrafanaHttp, o.grafana = some r → r.statusCode = 200 → r.uid ≠ []) →
        (runPipeline o uid text vtype).1.status = Status.failed →
        (runPipeline o uid text vtype).1.errors ≠ [])
    ∧ (∀ cfg, (runPipeline o uid text vtype).1.dashboard_config = some cfg →
        ∃ q, (runPipeline o uid text vtype).1.cleaned_sql_query = some q ∧
          cfg.rawSql = q ∧ (validateSqlComponents q).valid = true)
    ∧ (∀ u, (runPipeline o uid text vtype).1.dashboard_uid = some u →
        Stage.validate ∈ (runPipeline o uid text vtype).2 ∧
        Stage.preview ∈ (runPipeline o uid text vtype).2 ∧
        (∃ v, (runPipeline o uid text vtype).1.sql_validation_result = some v ∧
          v.valid = true) ∧
        (∃ p ps, (runPipeline o uid text vtype).1.data_preview = some (p :: ps))) := by
  obtain ⟨u1, u2, u3, u4, u5⟩ := stage4_untouched o uid text vtype
  unfold runPipeline
  dsimp only
  by_cases h1 : shouldValidate (stage4 o uid text vtype) = true
  case neg =>
    rw [if_neg h1]
    dsimp only
    refine ⟨?_, ?_, ?_, ?_⟩
    · intro hc
      exact Status.noConfusion hc
    · intro _ _
      have he : (handleErrorNode (stage4 o uid text vtype)).errors
          = (stage4 o uid text vtype).errors := rfl
      rw [he]
      by_cases hsf : (stage4 o uid text vtype).status = Status.failed
      · exact errOk_stage4 o uid text vtype hsf
      · exact absurd ((shouldValidate_iff _).mpr ⟨hsf, stage4_raw o uid text vtype hsf⟩) h1
    · intro cfg hcfg
      simp only [handleErrorNode] at hcfg
      rw [u4] at hcfg
      exact absurd hcfg (by simp)
    · intro u hu
      simp only [handleErrorNode] at hu
      rw [u5] at hu
      exact absurd hu (by simp)
  case pos =>
    rw [if_pos h1]
    have h1' := (shouldValidate_iff _).mp h1
    by_cases h2 : shouldPreview (validateQueryNode (stage4 o uid text vtype)) = true
    case neg =>
      rw [if_neg h2]
      dsimp only
      by_cases hv : (validateSqlComponents (cleanSqlQuery
          (optStr (stage4 o uid text vtype).raw_sql_query))).valid = true
      · refine absurd ((shouldPreview_iff
          (validateQueryNode (stage4 o uid text vtype))).mpr ?_) h2
        rw [validateQueryNode_valid _ hv]
        refine ⟨h1'.1, ?_⟩
        rw [truthyStr_iff]
        obtain ⟨c0, cs0, hc0⟩ := List.exists_cons_of_ne_nil
          (containsSub_ne_nil tsAsTimeTok (by decide) _
            (validateSqlComponents_valid _ hv).1)
        exact ⟨c0, cs0, by
          show some (cleanSqlQuery (optStr (stage4 o uid text vtype).raw_sql_query))
            = some (c0 :: cs0)
          rw [hc0]⟩
      · rw [validateQueryNode_invalid _ (Bool.eq_false_iff.mpr hv)]
        refine ⟨?_, ?_, ?_, ?_⟩
        · intro hc
          exact Status.noConfusion hc
        · intro _ _
          simp [handleErrorNode]
        · intro cfg hcfg
          simp only [handleErrorNode] at hcfg
          rw [u4] at hcfg
          exact absurd hcfg (by simp)
        · intro u hu
          simp only [handleErrorNode] at hu
          rw [u5] at hu
          exact absurd hu (by simp)
    case pos =>
      rw [if_pos h2]
      have hv := validate_progress _ h2
      have hval : validateQueryNode (stage4 o uid text vtype) =
          { stage4 o uid text vtype with
            cleaned_sql_query := some (cleanSqlQuery
              (optStr (stage4 o uid text vtype).raw_sql_query))
            sql_validation_result := some (validateSqlComponents (cleanSqlQuery
              (optStr (stage4 o uid text vtype).raw_sql_query))) } :=
        validateQueryNode_valid _ hv
      by_cases h3 : shouldBuild (previewDataNode o
          (validateQueryNode (stage4 o uid text vtype))) = true
      case neg =>
        rw [if_neg h3]
        dsimp only
        refine ⟨?_, ?_, ?_, ?_⟩
        · intro hc
          exact Status.noConfusion hc
        · intro _ _
          cases hdb : o.db (substituteTimeFilter (previewWrap
              (optStr (validateQueryNode (stage4 o uid text vtype)).cleaned_sql_query))) with
          | none =>
            rw [previewDataNode_none _ _ hdb]
            simp [handleErrorNode]
          | some l =>
            cases l with
            | nil =>
              rw [previewDataNode_nilRows _ _ hdb]
              simp [handleErrorNode]
            | cons p ps =>
              exfalso
              apply h3
              rw [previewDataNode_rows _ _ p ps hdb, shouldBuild_iff]
              constructor
              · show (validateQueryNode (stage4 o uid text vtype)).status ≠ Status.failed
                rw [hval]
                exact h1'.1
              · rw [truthyRows_iff]
                exact ⟨p, ps, rfl⟩
        · intro cfg hcfg
          have hkeep : (handleErrorNode (previewDataNode o (validateQueryNode
              (stage4 o uid text vtype)))).dashboard_config
              = (stage4 o uid text vtype).dashboard_config := by
            simp only [handleErrorNode]
            cases hdb : o.db (substituteTimeFilter (previewWrap
                (optStr (validateQueryNode (stage4 o uid text vtype)).cleaned_sql_query))) with
            | none => rw [previewDataNode_none _ _ hdb, hval]
            | some l =>
              cases l with
              | nil => rw [previewDataNode_nilRows _ _ hdb, hval]
              | cons p ps => rw [previewDataNode_rows _ _ p ps hdb, hval]
          rw [hkeep, u4] at hcfg
          exact absurd hcfg (by simp)
        · intro u hu
          have hkeep : (handleErrorNode (previewDataNode o (validateQueryNode
              (stage4 o uid text vtype)))).dashboard_uid
              = (stage4 o uid text vtype).dashboard_uid := by
            simp only [handleErrorNode]
            cases hdb : o.db (substituteTimeFilter (previewWrap
                (optStr (validateQueryNode (stage4 o uid text vtype)).cleaned_sql_query))) with
            | none => rw [previewDataNode_none _ _ hdb, hval]
            | some l =>
              cases l with
              | nil => rw [previewDataNode_nilRows _ _ hdb, hval]
              | cons p ps => rw [previewDataNode_rows _ _ p ps hdb, hval]
          rw [hkeep, u5] at hu
          exact absurd hu (by simp)
      case pos =>
        rw [if_pos h3]
        obtain ⟨p0, ps0, hdb⟩ := preview_progress o _ h3
        have hprev : previewDataNode o (validateQueryNode (stage4 o uid text vtype)) =
            { validateQueryNode (stage4 o uid text vtype) with
              data_preview := some (p0 :: ps0) } :=
          previewDataNode_rows _ _ p0 ps0 hdb
        by_cases h4 : shouldStore (deployGrafanaNode o.grafana (buildDashboardNode
            (previewDataNode o (validateQueryNode (stage4 o uid text vtype))))) = true
        case neg =>
          rw [if_neg h4]
          dsimp only
          refine ⟨?_, ?_, ?_, ?_⟩
          · intro hc
            exact Status.noConfusion hc
          · intro hg _
            cases hgr : o.grafana with
            | none =>
              rw [deployGrafanaNode_none]
              simp [handleErrorNode]
            | some r =>
              by_cases h200 : r.statusCode = 200
              · exfalso
                apply h4
                rw [hgr, deployGrafanaNode_200 r _ h200, shouldStore_iff]
                constructor
                · show (buildDashboardNode (previewDataNode o (validateQueryNode
                    (stage4 o uid text vtype)))).status ≠ Status.failed
                  rw [buildDashboardNode_eq, hprev, hval]
                  exact h1'.1
                · rw [truthyStr_iff]
                  obtain ⟨w, ws, hw⟩ := List.exists_cons_of_ne_nil (hg r hgr h200)
                  exact ⟨w, ws, by rw [hw]⟩
              · rw [deployGrafanaNode_non200 r _ h200]
                simp [handleErrorNode]
          · intro cfg hcfg
            have hcfg2 : cfg = ⟨optStr (previewDataNode o (validateQueryNode
                (stage4 o uid text vtype))).cleaned_sql_query,
                (getPanelConfigForType (optStr (previewDataNode o (validateQueryNode
                  (stage4 o uid text vtype))).chart_type)).ptype,
                (getPanelConfigForType (optStr (previewDataNode o (validateQueryNode
                  (stage4 o uid text vtype))).chart_type)).pformat⟩ := by
              cases hgr : o.grafana with
              | none =>
                rw [hgr, deployGrafanaNode_none] at hcfg
                simp only [handleErrorNode, buildDashboardNode_eq] at hcfg
                exact (Option.some.inj hcfg).symm
              | some r =>
                by_cases h200 : r.statusCode = 200
                · rw [hgr, deployGrafanaNode_200 r _ h200] at hcfg
                  simp only [handleErrorNode, buildDashboardNode_eq] at hcfg
                  exact (Option.some.inj hcfg).symm
                · rw [hgr, deployGrafanaNode_non200 r _ h200] at hcfg
                  simp only [handleErrorNode, buildDashboardNode_eq] at hcfg
                  exact (Option.some.inj hcfg).symm
            refine ⟨cleanSqlQuery (optStr (stage4 o uid text vtype).raw_sql_query), ?_, ?_, hv⟩
            · have : (handleErrorNode (deployGrafanaNode o.grafana (buildDashboardNode
                  (previewDataNode o (validateQueryNode
                    (stage4 o uid text vtype)))))).cleaned_sql_query
                  = (previewDataNode o (validateQueryNode
                    (stage4 o uid text vtype))).cleaned_sql_query := by
                simp only [handleErrorNode]
                cases hgr : o.grafana with
                | none => rw [deployGrafanaNode_none, buildDashboardNode_eq]
                | some r =>
                  by_cases h200 : r.statusCode = 200
                  · rw [deployGrafanaNode_200 r _ h200, buildDashboardNode_eq]
                  · rw [deployGrafanaNode_non200 r _ h200, buildDashboardNode_eq]
              rw [this, hprev, hval]
            · rw [hcfg2, hprev, hval]
              rfl
          · intro u hu
            refine ⟨by decide, by decide, ?_, ?_⟩
            · refine ⟨validateSqlComponents (cleanSqlQuery
                (optStr (stage4 o uid text vtype).raw_sql_query)), ?_, hv⟩
              have : (handleErrorNode (deployGrafanaNode o.grafana (buildDashboardNode
                  (previewDataNode o (validateQueryNode
                    (stage4 o uid text vtype)))))).sql_validation_result
                  = (previewDataNode o (validateQueryNode
                    (stage4 o uid text vtype))).sql_validation_result := by
                simp only [handleErrorNode]
                cases hgr : o.grafana with
                | none => rw [deployGrafanaNode_none, buildDashboardNode_eq]
                | some r =>
                  by_cases h200 : r.statusCode = 200
                  · rw [deployGrafanaNode_200 r _ h200, buildDashboardNode_eq]
                  · rw [deployGrafanaNode_non200 r _ h200, buildDashboardNode_eq]
              rw [this, hprev, hval]
            · refine ⟨p0, ps0, ?_⟩
              have : (handleErrorNode (deployGrafanaNode o.grafana (buildDashboardNode
                  (previewDataNode o (validateQueryNode
                    (stage4 o uid text vtype)))))).data_preview
                  = (previewDataNode o (validateQueryNode
                    (stage4 o uid text vtype))).data_preview := by
                simp only [handleErrorNode]
                cases hgr : o.grafana with
                | none => rw [deployGrafanaNode_none, buildDashboardNode_eq]
                | some r =>
                  by_cases h200 : r.statusCode = 200
                  · rw [deployGrafanaNode_200 r _ h200, buildDashboardNode_eq]
                  · rw [deployGrafanaNode_non200 r _ h200, buildDashboardNode_eq]
              rw [this, hprev]
        case pos =>
          rw [if_pos h4]
          dsimp only
          obtain ⟨r0, hgr, h200⟩ := deploy_progress o.grafana _ h4
          have hdep : deployGrafanaNode o.grafana (buildDashboardNode
              (previewDataNode o (validateQueryNode (stage4 o uid text vtype)))) =
              { buildDashboardNode (previewDataNode o (validateQueryNode
                  (stage4 o uid text vtype))) with
                dashboard_uid := some r0.uid
                iframe_url := some (mkIframeUrl r0.uid) } := by
            rw [hgr]
            exact deployGrafanaNode_200 r0 _ h200
          have huid0 : truthyStr (deployGrafanaNode o.grafana (buildDashboardNode
              (previewDataNode o (validateQueryNode
                (stage4 o uid text vtype))))).dashboard_uid = true :=
            ((shouldStore_iff _).mp h4).2
          cases hsv : o.storeViz with
          | none =>
            rw [storeResultsNode_none o _ hsv]
            refine ⟨?_, ?_, ?_, ?_⟩
            · intro hc
              exact Status.noConfusion hc
            · intro _ _
              simp
            · intro cfg hcfg
              have hc2 : (({ deployGrafanaNode o.grafana (buildDashboardNode
                  (previewDataNode o (validateQueryNode (stage4 o uid text vtype)))) with
                    errors := (deployGrafanaNode o.grafana (buildDashboardNode
                      (previewDataNode o (validateQueryNode
                        (stage4 o uid text vtype))))).errors ++ [storeFailedMsg]
                    status := Status.failed } : PState)).dashboard_config
                  = some ⟨optStr (previewDataNode o (validateQueryNode
                      (stage4 o uid text vtype))).cleaned_sql_query,
                    (getPanelConfigForType (optStr (previewDataNode o (validateQueryNode
                      (stage4 o uid text vtype))).chart_type)).ptype,
                    (getPanelConfigForType (optStr (previewDataNode o (validateQueryNode
                      (stage4 o uid text vtype))).chart_type)).pformat⟩ := by
                rw [show (({ deployGrafanaNode o.grafana (buildDashboardNode
                  (previewDataNode o (validateQueryNode (stage4 o uid text vtype)))) with
                    errors := (deployGrafanaNode o.grafana (buildDashboardNode
                      (previewDataNode o (validateQueryNode
                        (stage4 o uid text vtype))))).errors ++ [storeFailedMsg]
                    status := Status.failed } : PState)).dashboard_config
                  = (deployGrafanaNode o.grafana (buildDashboardNode
                      (previewDataNode o (validateQueryNode
                        (stage4 o uid text vtype))))).dashboard_config from rfl]
                rw [hdep, buildDashboardNode_eq]
              rw [hc2] at hcfg
              refine ⟨cleanSqlQuery (optStr (stage4 o uid text vtype).raw_sql_query),
                ?_, ?_, hv⟩
              · rw [show (({ deployGrafanaNode o.grafana (buildDashboardNode
                  (previewDataNode o (validateQueryNode (stage4 o uid text vtype)))) with
                    errors := (deployGrafanaNode o.grafana (buildDashboardNode
                      (previewDataNode o (validateQueryNode
                        (stage4 o uid text vtype))))).errors ++ [storeFailedMsg]
                    status := Status.failed } : PState)).cleaned_sql_query
                  = (deployGrafanaNode o.grafana (buildDashboardNode
                      (previewDataNode o (validateQueryNode
                        (stage4 o uid text vtype))))).cleaned_sql_query from rfl]
                rw [hdep, buildDashboardNode_eq, hprev, hval]
              · obtain hcfg' := Option.some.inj hcfg
                rw [← hcfg']
                dsimp only
                rw [hprev, hval]
                rfl
            · intro u hu
              refine ⟨by decide, by decide, ?_, ?_⟩
              · refine ⟨validateSqlComponents (cleanSqlQuery
                  (optStr (stage4 o uid text vtype).raw_sql_query)), ?_, hv⟩
                rw [show (({ deployGrafanaNode o.grafana (buildDashboardNode
                  (previewDataNode o (validateQueryNode (stage4 o uid text vtype)))) with
                    errors := (deployGrafanaNode o.grafana (buildDashboardNode
                      (previewDataNode o (validateQueryNode
                        (stage4 o uid text vtype))))).errors ++ [storeFailedMsg]
                    status := Status.failed } : PState)).sql_validation_result
                  = (deployGrafanaNode o.grafana (buildDashboardNode
                      (previewDataNode o (validateQueryNode
                        (stage4 o uid text vtype))))).sql_validation_result from rfl]
                rw [hdep, buildDashboardNode_eq, hprev, hval]
              · refine ⟨p0, ps0, ?_⟩
                rw [show (({ deployGrafanaNode o.grafana (buildDashboardNode
                  (previewDataNode o (validateQueryNode (stage4 o uid text vtype)))) with
                    errors := (deployGrafanaNode o.grafana (buildDashboardNode
                      (previewDataNode o (validateQueryNode
                        (stage4 o uid text vtype))))).errors ++ [storeFailedMsg]
                    status := Status.failed } : PState)).data_preview
                  = (deployGrafanaNode o.grafana (buildDashboardNode
                      (previewDataNode o (validateQueryNode
                        (stage4 o uid text vtype))))).data_preview from rfl]
                rw [hdep, buildDashboardNode_eq, hprev]
          | some vid =>
            cases haddOk : o.addDashOk with
            | false =>
              rw [storeResultsNode_addFail o _ vid hsv haddOk]
              refine ⟨?_, ?_, ?_, ?_⟩
              · intro hc
                exact Status.noConfusion hc
              · intro _ _
                simp
              · intro cfg hcfg
                rw [show (({ deployGrafanaNode o.grafana (buildDashboardNode
                  (previewDataNode o (validateQueryNode (stage4 o uid text vtype)))) with
                    visualization_id := some vid
                    errors := (deployGrafanaNode o.grafana (buildDashboardNode
                      (previewDataNode o (validateQueryNode
                        (stage4 o uid text vtype))))).errors ++ [storeFailedMsg]
                    status := Status.failed } : PState)).dashboard_config
                  = (deployGrafanaNode o.grafana (buildDashboardNode
                      (previewDataNode o (validateQueryNode
                        (stage4 o uid text vtype))))).dashboard_config from rfl,
                  hdep, buildDashboardNode_eq] at hcfg
                refine ⟨cleanSqlQuery (optStr (stage4 o uid text vtype).raw_sql_query),
                  ?_, ?_, hv⟩
                · rw [show (({ deployGrafanaNode o.grafana (buildDashboardNode
                    (previewDataNode o (validateQueryNode (stage4 o uid text vtype)))) with
                      visualization_id := some vid
                      errors := (deployGrafanaNode o.grafana (buildDashboardNode
                        (previewDataNode o (validateQueryNode
                          (stage4 o uid text vtype))))).errors ++ [storeFailedMsg]
                      status := Status.failed } : PState)).cleaned_sql_query
                    = (deployGrafanaNode o.grafana (buildDashboardNode
                        (previewDataNode o (validateQueryNode
                          (stage4 o uid text vtype))))).cleaned_sql_query from rfl,
                    hdep, buildDashboardNode_eq, hprev, hval]
                · obtain hcfg' := Option.some.inj hcfg
                  rw [← hcfg']
                  dsimp only
                  rw [hprev, hval]
                  rfl
              · intro u hu
                refine ⟨by decide, by decide, ?_, ?_⟩
                · refine ⟨validateSqlComponents (cleanSqlQuery
                    (optStr (stage4 o uid text vtype).raw_sql_query)), ?_, hv⟩
                  rw [show (({ deployGrafanaNode o.grafana (buildDashboardNode
                    (previewDataNode o (validateQueryNode (stage4 o uid text vtype)))) with
                      visualization_id := some vid
                      errors := (deployGrafanaNode o.grafana (buildDashboardNode
                        (previewDataNode o (validateQueryNode
                          (stage4 o uid text vtype))))).errors ++ [storeFailedMsg]
                      status := Status.failed } : PState)).sql_validation_result
                    = (deployGrafanaNode o.grafana (buildDashboardNode
                        (previewDataNode o (validateQueryNode
                          (stage4 o uid text vtype))))).sql_validation_result from rfl,
                    hdep, buildDashboardNode_eq, hprev, hval]
                · refine ⟨p0, ps0, ?_⟩
                  rw [show (({ deployGrafanaNode o.grafana (buildDashboardNode
                    (previewDataNode o (validateQueryNode (stage4 o uid text vtype)))) with
                      visualization_id := some vid
                      errors := (deployGrafanaNode o.grafana (buildDashboardNode
                        (previewDataNode o (validateQueryNode
                          (stage4 o uid text vtype))))).errors ++ [storeFailedMsg]
                      status := Status.failed } : PState)).data_preview
                    = (deployGrafanaNode o.grafana (buildDashboardNode
                        (previewDataNode o (validateQueryNode
                          (stage4 o uid text vtype))))).data_preview from rfl,
                    hdep, buildDashboardNode_eq, hprev]
            | true =>
              rw [storeResultsNode_ok o _ vid hsv haddOk]
              refine ⟨?_, ?_, ?_, ?_⟩
              · intro _
                obtain ⟨c0, cs0, hc0⟩ := List.exists_cons_of_ne_nil
                  (containsSub_ne_nil tsAsTimeTok (by decide) _
                    (validateSqlComponents_valid _ hv).1)
                refine ⟨⟨c0, cs0, ?_⟩, ⟨p0, ps0, ?_⟩, ?_⟩
                · rw [show (({ deployGrafanaNode o.grafana (buildDashboardNode
                    (previewDataNode o (validateQueryNode (stage4 o uid text vtype)))) with
                      visualization_id := some vid
                      status := Status.completed } : PState)).cleaned_sql_query
                    = (deployGrafanaNode o.grafana (buildDashboardNode
                        (previewDataNode o (validateQueryNode
                          (stage4 o uid text vtype))))).cleaned_sql_query from rfl,
                    hdep, buildDashboardNode_eq, hprev, hval]
                  rw [hc0]
                · rw [show (({ deployGrafanaNode o.grafana (buildDashboardNode
                    (previewDataNode o (validateQueryNode (stage4 o uid text vtype)))) with
                      visualization_id := some vid
                      status := Status.completed } : PState)).data_preview
                    = (deployGrafanaNode o.grafana (buildDashboardNode
                        (previewDataNode o (validateQueryNode
                          (stage4 o uid text vtype))))).data_preview from rfl,
                    hdep, buildDashboardNode_eq, hprev]
                · rw [truthyStr_iff] at huid0
                  obtain ⟨w, ws, hw⟩ := huid0
                  exact ⟨w, ws, hw⟩
              · intro _ hc
                exact Status.noConfusion hc
              · intro cfg hcfg
                rw [show (({ deployGrafanaNode o.grafana (buildDashboardNode
                  (previewDataNode o (validateQueryNode (stage4 o uid text vtype)))) with
                    visualization_id := some vid
                    status := Status.completed } : PState)).dashboard_config
                  = (deployGrafanaNode o.grafana (buildDashboardNode
                      (previewDataNode o (validateQueryNode
                        (stage4 o uid text vtype))))).dashboard_config from rfl,
                  hdep, buildDashboardNode_eq] at hcfg
                refine ⟨cleanSqlQuery (optStr (stage4 o uid text vtype).raw_sql_query),
                  ?_, ?_, hv⟩
                · rw [show (({ deployGrafanaNode o.grafana (buildDashboardNode
                    (previewDataNode o (validateQueryNode (stage4 o uid text vtype)))) with
                      visualization_id := some vid
                      status := Status.completed } : PState)).cleaned_sql_query
                    = (deployGrafanaNode o.grafana (buildDashboardNode
                        (previewDataNode o (validateQueryNode
                          (stage4 o uid text vtype))))).cleaned_sql_query from rfl,
                    hdep, buildDashboardNode_eq, hprev, hval]
                · obtain hcfg' := Option.some.inj hcfg
                  rw [← hcfg']
                  dsimp only
                  rw [hprev, hval]
                  rfl
              · intro u hu
                refine ⟨by decide, by decide, ?_, ?_⟩
                · refine ⟨validateSqlComponents (cleanSqlQuery
                    (optStr (stage4 o uid text vtype).raw_sql_query)), ?_, hv⟩
                  rw [show (({ deployGrafanaNode o.grafana (buildDashboardNode
                    (previewDataNode o (validateQueryNode (stage4 o uid text vtype)))) with
                      visualization_id := some vid
                      status := Status.completed } : PState)).sql_validation_result
                    = (deployGrafanaNode o.grafana (buildDashboardNode
                        (previewDataNode o (validateQueryNode
                          (stage4 o uid text vtype))))).sql_validation_result from rfl,
                    hdep, buildDashboardNode_eq, hprev, hval]
                · refine ⟨p0, ps0, ?_⟩
                  rw [show (({ deployGrafanaNode o.grafana (buildDashboardNode
                    (previewDataNode o (validateQueryNode (stage4 o uid text vtype)))) with
                      visualization_id := some vid
                      status := Status.completed } : PState)).data_preview
                    = (deployGrafanaNode o.grafana (buildDashboardNode
                        (previewDataNode o (validateQueryNode
                          (stage4 o uid text vtype))))).data_preview from rfl,
                    hdep, buildDashboardNode_eq, hprev]

/-! ### Properties of the preview-copy substitution -/

def dollarC : Char := '$'

def tfTokTail : List Char := "__timeFilter(timestamp)".data

theorem startsW_append_of_le (p : List Char) : ∀ (a b : List Char),
    p.length ≤ a.length → startsW p (a ++ b) = startsW p a := by
  induction p with
  | nil => intro a b _; rfl
  | cons x p ih =>
    intro a b h
    cases a with
    | nil => simp at h
    | cons y a' =>
      show (x == y && startsW p (a' ++ b)) = (x == y && startsW p a')
      rw [ih a' b (by simpa using h)]

theorem startsW_self_append (a b : List Char) : startsW a (a ++ b) = true := by
  induction a with
  | nil => rfl
  | cons x a ih =>
    show (x == x && startsW a (a ++ b)) = true
    rw [ih]
    simp

theorem startsW_iff_append (p : List Char) : ∀ s, startsW p s = true ↔ ∃ t, s = p ++ t := by
  induction p with
  | nil =>
    intro s
    constructor
    · intro _; exact ⟨s, rfl⟩
    · intro _; rfl
  | cons x p ih =>
    intro s
    cases s with
    | nil =>
      constructor
      · intro h; exact absurd h (by simp [startsW])
      · rintro ⟨t, ht⟩; exact absurd ht (by simp)
    | cons c cs =>
      constructor
      · intro h
        have hx : x = c ∧ startsW p cs = true := by
          simpa [startsW, Bool.and_eq_true] using h
        obtain ⟨t, ht⟩ := (ih cs).mp hx.2
        refine ⟨t, ?_⟩
        rw [← hx.1, ht]
        rfl
      · rintro ⟨t, ht⟩
        rw [ht]
        show (x == x && startsW p (p ++ t)) = true
        rw [startsW_self_append]
        simp

/-- Appending a dollar-free prefix does not add an occurrence of the
placeholder. -/
theorem containsSub_tok_append (p : List Char) : ∀ z, (∀ c ∈ p, c ≠ dollarC) →
    containsSub timeFilterTok (p ++ z) = containsSub timeFilterTok z := by
  induction p with
  | nil => intro z _; rfl
  | cons a p ih =>
    intro z hp
    have htok : timeFilterTok = dollarC :: tfTokTail := by decide
    have h1 : startsW timeFilterTok (a :: (p ++ z)) = false := by
      rw [htok]
      show (dollarC == a && startsW tfTokTail (p ++ z)) = false
      have hda : (dollarC == a) = false := by
        rw [beq_eq_false_iff_ne]
        exact fun hh => hp a (by simp) hh.symm
      rw [hda, Bool.false_and]
    show (startsW timeFilterTok (a :: (p ++ z)) || containsSub timeFilterTok (p ++ z))
      = containsSub timeFilterTok z
    rw [h1, Bool.false_or]
    exact ih z (fun c hc => hp c (by simp [hc]))

/-- Substitution does not create a new partial occurrence of the
placeholder: a proper tail of the token starting the substituted string also
starts the original. -/
theorem replaceAllTF_tail_aux : ∀ n, ∀ (s t1 t2 : List Char), s.length ≤ n →
    timeFilterTok = t1 ++ t2 → t1 ≠ [] →
    startsW t2 (replaceAllTF s) = true → startsW t2 s = true := by
  intro n
  induction n with
  | zero =>
    intro s t1 t2 hs _ _ h
    have hsnil : s = [] := List.length_eq_zero.mp (Nat.le_zero.mp hs)
    subst hsnil
    simp only [replaceAllTF] at h
    exact h
  | succ n ih =>
    intro s t1 t2 hs htok ht1 h
    rcases t2 with _ | ⟨d, t2'⟩
    · rfl
    · cases s with
      | nil =>
        simp only [replaceAllTF] at h
        exact absurd h (by simp [startsW])
      | cons c cs =>
        by_cases hst : startsW timeFilterTok (c :: cs) = true
        · simp only [replaceAllTF] at h
          rw [if_pos hst] at h
          have hlen24 : timeFilterTok.length = 24 := by decide
          have hlenR : tfReplTok.length = 40 := by decide
          have hlent : t1.length + (d :: t2').length = 24 := by
            have := congrArg List.length htok
            simp only [List.length_append] at this
            omega
          have ht1p : 1 ≤ t1.length := by
            cases h1 : t1 with
            | nil => exact absurd h1 ht1
            | cons x xs => simp [h1]
          have hlen2 : (d :: t2').length ≤ tfReplTok.length := by
            simp only [List.length_cons] at hlent ⊢
            omega
          rw [startsW_append_of_le (d :: t2') tfReplTok _ hlen2] at h
          have ht2eq : d :: t2' = timeFilterTok.drop t1.length := by
            rw [htok, List.drop_left]
          have hk : t1.length < 24 := by
            have h0 : 1 ≤ (d :: t2').length := by simp
            omega
          have hdec : ∀ k, k < 24 → 1 ≤ k →
              startsW (timeFilterTok.drop k) tfReplTok = false := by decide
          rw [ht2eq] at h
          rw [hdec t1.length hk ht1p] at h
          exact absurd h (by simp)
        · simp only [replaceAllTF] at h
          rw [if_neg hst] at h
          have h2 : (d == c) = true ∧ startsW t2' (replaceAllTF cs) = true := by
            simpa [startsW, Bool.and_eq_true] using h
          have hcs : cs.length ≤ n := by
            have := hs
            simp only [List.length_cons] at this
            omega
          have h3 : startsW t2' cs = true :=
            ih cs (t1 ++ [d]) t2' hcs (by rw [htok]; simp) (by simp) h2.2
          show (d == c && startsW t2' cs) = true
          rw [h2.1, h3]
          rfl

theorem replaceAllTF_no_token_aux : ∀ n (s : List Char), s.length ≤ n →
    containsSub timeFilterTok (replaceAllTF s) = false := by
  intro n
  induction n with
  | zero =>
    intro s hs
    have hsnil : s = [] := List.length_eq_zero.mp (Nat.le_zero.mp hs)
    subst hsnil
    simp only [replaceAllTF]
    decide
  | succ n ih =>
    intro s hs
    cases s with
    | nil =>
      simp only [replaceAllTF]
      decide
    | cons c cs =>
      have hcs : cs.length ≤ n := by
        have := hs
        simp only [List.length_cons] at this
        omega
      by_cases hst : startsW timeFilterTok (c :: cs) = true
      · simp only [replaceAllTF]
        rw [if_pos hst]
        rw [containsSub_tok_append tfReplTok
          (replaceAllTF (cs.drop (timeFilterTok.length - 1))) (by decide)]
        refine ih _ ?_
        have : (cs.drop (timeFilterTok.length - 1)).length ≤ cs.length := by
          simp [List.length_drop]
        omega
      · simp only [replaceAllTF]
        rw [if_neg hst]
        show (startsW timeFilterTok (c :: replaceAllTF cs) ||
          containsSub timeFilterTok (replaceAllTF cs)) = false
        rw [ih cs hcs, Bool.or_false]
        by_contra hcon
        rw [Bool.not_eq_false] at hcon
        have htoke : timeFilterTok = dollarC :: tfTokTail := by decide
        rw [htoke] at hcon
        have h2 : (dollarC == c) = true ∧ startsW tfTokTail (replaceAllTF cs) = true := by
          simpa [startsW, Bool.and_eq_true] using hcon
        have h3 : startsW tfTokTail cs = true :=
          replaceAllTF_tail_aux n cs [dollarC] tfTokTail hcs (by decide) (by simp) h2.2
        apply hst
        rw [htoke]
        show (dollarC == c && startsW tfTokTail cs) = true
        rw [h2.1, h3]
        rfl

/-- The substituted preview copy never contains the time-range
placeholder. -/
theorem replaceAllTF_no_token (s : List Char) :
    containsSub timeFilterTok (replaceAllTF s) = false :=
  replaceAllTF_no_token_aux s.length s (Nat.le_refl _)

/-! ### Nodes after the preview stage never change the preview rows -/

theorem validate_keeps_preview (st : PState) :
    (validateQueryNode st).data_preview = st.data_preview := by
  unfold validateQueryNode
  dsimp only
  split <;> rfl

theorem build_keeps_preview (st : PState) :
    (buildDashboardNode st).data_preview = st.data_preview := rfl

theorem deploy_keeps_preview (g : Option GrafanaHttp) (st : PState) :
    (deployGrafanaNode g st).data_preview = st.data_preview := by
  unfold deployGrafanaNode
  cases g with
  | none => rfl
  | some r =>
    dsimp only
    split <;> rfl

theorem store_keeps_preview (o : Oracle) (st : PState) :
    (storeResultsNode o st).data_preview = st.data_preview := by
  unfold storeResultsNode
  cases o.storeViz with
  | none => rfl
  | some vid =>
    dsimp only
    split <;> rfl

theorem handleError_keeps_preview (st : PState) :
    (handleErrorNode st).data_preview = st.data_preview := rfl

/-- Every preview-row list held by a final state came from the store
executing the substituted, wrapped preview query, and is nonempty. -/
theorem run_preview_origin (o : Oracle) (uid : Nat) (text vtype : List Char) :
    ∀ rows, (runPipeline o uid text vtype).1.data_preview = some rows →
      ∃ q, o.db (substituteTimeFilter (previewWrap q)) = some rows ∧ rows ≠ [] := by
  obtain ⟨u1, u2, u3, u4, u5⟩ := stage4_untouched o uid text vtype
  unfold runPipeline
  dsimp only
  by_cases h1 : shouldValidate (stage4 o uid text vtype) = true
  case neg =>
    rw [if_neg h1]
    intro rows hr
    rw [handleError_keeps_preview, u3] at hr
    exact absurd hr (by simp)
  case pos =>
    rw [if_pos h1]
    by_cases h2 : shouldPreview (validateQueryNode (stage4 o uid text vtype)) = true
    case neg =>
      rw [if_neg h2]
      intro rows hr
      rw [handleError_keeps_preview, validate_keeps_preview, u3] at hr
      exact absurd hr (by simp)
    case pos =>
      rw [if_pos h2]
      by_cases h3 : shouldBuild (previewDataNode o
          (validateQueryNode (stage4 o uid text vtype))) = true
      case neg =>
        rw [if_neg h3]
        intro rows hr
        rw [handleError_keeps_preview] at hr
        cases hdb : o.db (substituteTimeFilter (previewWrap
            (optStr (validateQueryNode (stage4 o uid text vtype)).cleaned_sql_query))) with
        | none =>
          rw [previewDataNode_none _ _ hdb] at hr
          have : (stage4 o uid text vtype).data_preview = some rows := by
            rw [← validate_keeps_preview]
            exact hr
          rw [u3] at this
          exact absurd this (by simp)
        | some l =>
          cases l with
          | nil =>
            rw [previewDataNode_nilRows _ _ hdb] at hr
            have : (stage4 o uid text vtype).data_preview = some rows := by
              rw [← validate_keeps_preview]
              exact hr
            rw [u3] at this
            exact absurd this (by simp)
          | cons p ps =>
            rw [previewDataNode_rows _ _ p ps hdb] at hr
            have hrows : rows = p :: ps := (Option.some.inj hr).symm
            exact ⟨optStr (validateQueryNode (stage4 o uid text vtype)).cleaned_sql_query,
              by rw [← hrows] at hdb; exact hdb, by rw [hrows]; simp⟩
      case pos =>
        rw [if_pos h3]
        obtain ⟨p0, ps0, hdb⟩ := preview_progress o _ h3
        have hprev := previewDataNode_rows _ _ p0 ps0 hdb
        by_cases h4 : shouldStore (deployGrafanaNode o.grafana (buildDashboardNode
            (previewDataNode o (validateQueryNode (stage4 o uid text vtype))))) = true
        · rw [if_pos h4]
          intro rows hr
          rw [store_keeps_preview, deploy_keeps_preview, build_keeps_preview, hprev] at hr
          have hrows : rows = p0 :: ps0 := (Option.some.inj hr).symm
          exact ⟨optStr (validateQueryNode (stage4 o uid text vtype)).cleaned_sql_query,
            by rw [← hrows] at hdb; exact hdb, by rw [hrows]; simp⟩
        · rw [if_neg h4]
          intro rows hr
          rw [handleError_keeps_preview, deploy_keeps_preview, build_keeps_preview, hprev] at hr
          have hrows : rows = p0 :: ps0 := (Option.some.inj hr).symm
          exact ⟨optStr (validateQueryNode (stage4 o uid text vtype)).cleaned_sql_query,
            by rw [← hrows] at hdb; exact hdb, by rw [hrows]; simp⟩

/-! ## Shared concrete inputs for witnesses and counterexamples -/

/-- A well-formed generated query, as the LLM strategy is instructed to
produce. -/
def okSql : List Char :=
  ("SELECT timestamp AS time, hb_west AS price FROM ercot_settlement_prices " ++
    "WHERE $__timeFilter(timestamp) ORDER BY timestamp").data

def row0 : PreviewRow := [("time".data, "t0".data)]

def reqWest : List Char := "show me west hub prices".data

def chartT : List Char := "chart".data

/-- All stages succeed but the visualization-record insert raises. -/
def oStoreFail : Oracle :=
  { bedrock := some ⟨okSql, some tsT, some "West Hub".data⟩
    db := fun _ => some [row0]
    grafana := some ⟨200, "abc".data⟩
    storeViz := none
    addDashOk := true }

/-- Everything succeeds. -/
def oGood : Oracle :=
  { bedrock := some ⟨okSql, some tsT, some "West Hub".data⟩
    db := fun _ => some [row0]
    grafana := some ⟨200, "abc".data⟩
    storeViz := some 7
    addDashOk := true }

/-- Every external call fails. -/
def oNoop : Oracle :=
  { bedrock := none
    db := fun _ => none
    grafana := none
    storeViz := none
    addDashOk := true }

/-! ## Claim C2 -/

/-- Claim C2, counterexample: a run in which every stage up to and including
the Grafana deployment succeeds but the visualization-record insert fails
ends with `status = failed` while a dashboard id was issued and recorded in
the state — contradicting "`status == failed` implies no dashboard id was
issued". -/
theorem claimC2_counterexample :
    (runPipeline oStoreFail 1 reqWest chartT).1.status = Status.failed ∧
    (runPipeline oStoreFail 1 reqWest chartT).1.dashboard_uid = some "abc".data ∧
    (runPipeline oStoreFail 1 reqWest chartT).1.errors ≠ [] := by
  refine ⟨by decide, by decide, by decide⟩

/-- Claim C2, amended: in every run, `status == completed` implies the
sanitized query, the preview rows, and the dashboard id are all present and
non-empty.  `status == failed` implies the error list is non-empty provided
a 200 deployment response never carries an empty uid; but a dashboard id may
already have been issued and retained in the state when the failure occurs
at the result-persistence stage. -/
theorem claimC2_amended (o : Oracle) (uid : Nat) (text vtype : List Char)
    (hg : ∀ r : GrafanaHttp, o.grafana = some r → r.statusCode = 200 → r.uid ≠ []) :
    ((runPipeline o uid text vtype).1.status = Status.completed →
      (∃ c cs, (runPipeline o uid text vtype).1.cleaned_sql_query = some (c :: cs)) ∧
      (∃ p ps, (runPipeline o uid text vtype).1.data_preview = some (p :: ps)) ∧
      (∃ u us, (runPipeline o uid text vtype).1.dashboard_uid = some (u :: us)))
    ∧ ((runPipeline o uid text vtype).1.status = Status.failed →
        (runPipeline o uid text vtype).1.errors ≠ []) :=
  ⟨(run_master o uid text vtype).1, (run_master o uid text vtype).2.1 hg⟩

/-- Claim C2, witness: the amended invariant evaluated on a fully successful
concrete run. -/
theorem claimC2_witness :
    (∃ c cs, (runPipeline oGood 1 reqWest chartT).1.cleaned_sql_query = some (c :: cs)) ∧
    (∃ p ps, (runPipeline oGood 1 reqWest chartT).1.data_preview = some (p :: ps)) ∧
    (∃ u us, (runPipeline oGood 1 reqWest chartT).1.dashboard_uid = some (u :: us)) :=
  (claimC2_amended oGood 1 reqWest chartT (by
    intro r hr h200
    have : r = ⟨200, "abc".data⟩ := (Option.some.inj hr).symm
    rw [this]
    decide)).1 (by decide)

/-! ## Claim C7 -/

/-- Claim C7 (confirmed): the pipeline never reaches the provisioned state
without passing through validation and preview: whenever a run's final state
carries a dashboard uid, the run executed the validation node and the
preview node, the validation result it kept is valid, and the preview rows
it kept are non-empty. -/
theorem claimC7 (o : Oracle) (uid : Nat) (text vtype : List Char) (u : List Char)
    (h : (runPipeline o uid text vtype).1.dashboard_uid = some u) :
    Stage.validate ∈ (runPipeline o uid text vtype).2 ∧
    Stage.preview ∈ (runPipeline o uid text vtype).2 ∧
    (∃ v, (runPipeline o uid text vtype).1.sql_validation_result = some v ∧
      v.valid = true) ∧
    (∃ p ps, (runPipeline o uid text vtype).1.data_preview = some (p :: ps)) :=
  (run_master o uid text vtype).2.2.2 u h

/-- Claim C7, witness: the temporal property evaluated on a concrete
successful run. -/
theorem claimC7_witness :
    Stage.validate ∈ (runPipeline oGood 1 reqWest chartT).2 ∧
    Stage.preview ∈ (runPipeline oGood 1 reqWest chartT).2 ∧
    (∃ v, (runPipeline oGood 1 reqWest chartT).1.sql_validation_result = some v ∧
      v.valid = true) ∧
    (∃ p ps, (runPipeline oGood 1 reqWest chartT).1.data_preview = some (p :: ps)) :=
  claimC7 oGood 1 reqWest chartT "abc".data (by decide)

/-! ## Claim C5 -/

/-- Claim C5 (confirmed): the preview executes on a separate copy of the
query — the wrapped query with the time-range placeholder substituted by the
concrete bounded interval (`previewDataNode` hands exactly
`substituteTimeFilter (previewWrap q)` to the store) — while the dashboard
configuration handed to provisioning carries the original sanitized query
`q` unchanged, still containing the placeholder; the substituted preview
copy contains no placeholder and is never what gets provisioned. -/
theorem claimC5 (o : Oracle) (uid : Nat) (text vtype : List Char) (cfg : DashboardCfg)
    (h : (runPipeline o uid text vtype).1.dashboard_config = some cfg) :
    ∃ q, (runPipeline o uid text vtype).1.cleaned_sql_query = some q ∧
      cfg.rawSql = q ∧
      containsSub timeFilterTok q = true ∧
      containsSub timeFilterTok (substituteTimeFilter (previewWrap q)) = false ∧
      substituteTimeFilter (previewWrap q) ≠ q := by
  obtain ⟨q, hq, hraw, hvalid⟩ := (run_master o uid text vtype).2.2.1 cfg h
  have hcont := (validateSqlComponents_valid q hvalid).2.1
  have hno := replaceAllTF_no_token (previewWrap q)
  refine ⟨q, hq, hraw, hcont, hno, ?_⟩
  intro he
  rw [show substituteTimeFilter (previewWrap q) = replaceAllTF (previewWrap q) from rfl]
    at he
  rw [he] at hno
  rw [hcont] at hno
  exact Bool.noConfusion hno

/-- Claim C5, witness: the frame property evaluated on a concrete successful
run. -/
theorem claimC5_witness :
    ∃ q, (runPipeline oGood 1 reqWest chartT).1.cleaned_sql_query = some q ∧
      (⟨okSql, "timeseries".data, "time_series".data⟩ : DashboardCfg).rawSql = q ∧
      containsSub timeFilterTok q = true ∧
      containsSub timeFilterTok (substituteTimeFilter (previewWrap q)) = false ∧
      substituteTimeFilter (previewWrap q) ≠ q :=
  claimC5 oGood 1 reqWest chartT ⟨okSql, "timeseries".data, "time_series".data⟩ (by decide)

/-! ## Claim C9 -/

theorem aiAnalyzeDataSource_nil (t : List Char) : aiAnalyzeDataSource t [] = none := by
  unfold aiAnalyzeDataSource
  split <;> rfl

theorem resolveSource_nil (t : List Char) : resolveSource t [] = none := by
  unfold resolveSource
  split
  · rfl
  · split
    · rfl
    · rw [aiAnalyzeDataSource_nil]
      rfl

/-- With an empty catalog in the state, every branch of the data-source node
ends in the caught-exception path and selects nothing. -/
theorem analyzeNode_nilSources (st : PState) (h : st.available_data_sources = []) :
    analyzeDataSourcesNode st =
      { st with errors := st.errors ++ [dsAnalysisFailedMsg], status := Status.failed } := by
  unfold analyzeDataSourcesNode
  have hres : resolveSource (lowerL st.request_text) st.available_data_sources = none := by
    rw [h]
    exact resolveSource_nil _
  rw [hres]

/-- With no selected data source, the generation node hits the
caught-exception path before any LLM call, and generates nothing. -/
theorem generateNode_noSource (o : Oracle) (st : PState)
    (h : st.selected_data_source = none) :
    generateQueryNode o st =
      { st with errors := st.errors ++ [genFailedMsg], status := Status.failed } := by
  unfold generateQueryNode
  rw [h]

/-- Claim C9, counterexample: for a too-short request the graph's
unconditional edges still execute the data-source-resolution node and the
query-generation node after the parse rejection (the first conditional gate
comes only after query generation), so the request is not "rejected before
any stage runs". -/
theorem claimC9_counterexample :
    Stage.analyze ∈ (runPipeline oNoop 1 "hi".data chartT).2 ∧
    Stage.generate ∈ (runPipeline oNoop 1 "hi".data chartT).2 ∧
    (runPipeline oNoop 1 "hi".data chartT).1.status = Status.failed := by
  exact ⟨by decide, by decide, by decide⟩

/-- Claim C9, amended: a request whose text is empty or whose stripped
length is below 3 terminates failed with the RequestInvalid-style error
recorded, and although the detection, resolution, and generation nodes are
still entered, none of their effects occur: no data source is resolved, no
query is generated or sanitized, no preview is executed, and no provisioning
or result-store call is made (the preview, deploy, and store nodes never
run). -/
theorem claimC9_amended (o : Oracle) (uid : Nat) (vtype text : List Char)
    (h : text = [] ∨ (stripL text).length < 3) :
    (runPipeline o uid text vtype).1.status = Status.failed ∧
    tooShortMsg ∈ (runPipeline o uid text vtype).1.errors ∧
    (runPipeline o uid text vtype).1.selected_data_source = none ∧
    (runPipeline o uid text vtype).1.raw_sql_query = none ∧
    (runPipeline o uid text vtype).1.cleaned_sql_query = none ∧
    (runPipeline o uid text vtype).1.data_preview = none ∧
    (runPipeline o uid text vtype).1.dashboard_uid = none ∧
    Stage.preview ∉ (runPipeline o uid text vtype).2 ∧
    Stage.deploy ∉ (runPipeline o uid text vtype).2 ∧
    Stage.store ∉ (runPipeline o uid text vtype).2 := by
  have hp : parseRequestNode (initState uid text vtype) =
      { initState uid text vtype with
          errors := [tooShortMsg]
          status := Status.failed } := by
    unfold parseRequestNode
    have h2 : (initState uid text vtype).request_text = [] ∨
        (stripL (initState uid text vtype).request_text).length < 3 := h
    rw [if_pos h2]
    rfl
  have hA := analyzeNode_nilSources
    (detectVisualizationTypeNode (parseRequestNode (initState uid text vtype)))
    (by
      show (parseRequestNode (initState uid text vtype)).available_data_sources = []
      rw [hp]
      rfl)

  have hsel : (analyzeDataSourcesNode (detectVisualizationTypeNode
      (parseRequestNode (initState uid text vtype)))).selected_data_source = none := by
    rw [hA]
    show (parseRequestNode (initState uid text vtype)).selected_data_source = none
    rw [hp]
    rfl
  have hG := generateNode_noSource o
    (analyzeDataSourcesNode (detectVisualizationTypeNode
      (parseRequestNode (initState uid text vtype)))) hsel
  have hstat : (stage4 o uid text vtype).status = Status.failed := by
    unfold stage4
    rw [hG]
  have hgate : ¬ shouldValidate (stage4 o uid text vtype) = true := by
    simp [shouldValidate, hstat]
  obtain ⟨u1, u2, u3, u4, u5⟩ := stage4_untouched o uid text vtype
  unfold runPipeline
  dsimp only
  rw [if_neg hgate]
  refine ⟨rfl, ?_, ?_, ?_, u1, u3, u5, ?_, ?_, ?_⟩
  · show tooShortMsg ∈ (stage4 o uid text vtype).errors
    unfold stage4
    rw [hG]
    show tooShortMsg ∈ (analyzeDataSourcesNode (detectVisualizationTypeNode
      (parseRequestNode (initState uid text vtype)))).errors ++ [genFailedMsg]
    rw [hA]
    show tooShortMsg ∈ ((parseRequestNode (initState uid text vtype)).errors
      ++ [dsAnalysisFailedMsg]) ++ [genFailedMsg]
    rw [hp]
    simp
  · show (stage4 o uid text vtype).selected_data_source = none
    unfold stage4
    rw [hG]
    exact hsel
  · show (stage4 o uid text vtype).raw_sql_query = none
    unfold stage4
    rw [hG]
    show (analyzeDataSourcesNode (detectVisualizationTypeNode
      (parseRequestNode (initState uid text vtype)))).raw_sql_query = none
    rw [hA]
    show (parseRequestNode (initState uid text vtype)).raw_sql_query = none
    rw [hp]
    rfl
  · show Stage.preview ∉ preTrace ++ [Stage.handleError]
    decide
  · show Stage.deploy ∉ preTrace ++ [Stage.handleError]
    decide
  · show Stage.store ∉ preTrace ++ [Stage.handleError]
    decide

/-- Claim C9, witness: the amended statement evaluated at the concrete
too-short request `"hi"`. -/
theorem claimC9_witness :
    (runPipeline oNoop 1 "hi".data chartT).1.status = Status.failed ∧
    tooShortMsg ∈ (runPipeline oNoop 1 "hi".data chartT).1.errors ∧
    (runPipeline oNoop 1 "hi".data chartT).1.selected_data_source = none ∧
    (runPipeline oNoop 1 "hi".data chartT).1.raw_sql_query = none ∧
    (runPipeline oNoop 1 "hi".data chartT).1.cleaned_sql_query = none ∧
    (runPipeline oNoop 1 "hi".data chartT).1.data_preview = none ∧
    (runPipeline oNoop 1 "hi".data chartT).1.dashboard_uid = none ∧
    Stage.preview ∉ (runPipeline oNoop 1 "hi".data chartT).2 ∧
    Stage.deploy ∉ (runPipeline oNoop 1 "hi".data chartT).2 ∧
    Stage.store ∉ (runPipeline oNoop 1 "hi".data chartT).2 :=
  claimC9_amended oNoop 1 chartT "hi".data (by decide)

/-! ## Claim C6 -/

def limit5Suffix : List Char := " LIMIT 5".data

/-- Substitution is the identity on dollar-free text. -/
theorem replaceAllTF_id_of_no_dollar (s : List Char) (hs : ∀ c ∈ s, c ≠ dollarC) :
    replaceAllTF s = s := by
  induction s with
  | nil => simp [replaceAllTF]
  | cons c cs ih =>
    have hst : ¬ startsW timeFilterTok (c :: cs) = true := by
      intro hcon
      have htoke : timeFilterTok = dollarC :: tfTokTail := by decide
      rw [htoke] at hcon
      have h2 : (dollarC == c) = true ∧ startsW tfTokTail cs = true := by
        simpa [startsW, Bool.and_eq_true] using hcon
      exact hs c (by simp) (eq_of_beq h2.1).symm
    simp only [replaceAllTF]
    rw [if_neg hst, ih (fun a ha => hs a (by simp [ha]))]

/-- The placeholder substitution preserves a trailing ` LIMIT 5`: no token
occurrence ends inside it (the token ends in a parenthesis) and the
replacement text leaves the tail intact. -/
theorem replaceAllTF_keeps_limit5_aux : ∀ n (s pre : List Char), s.length ≤ n →
    s = pre ++ limit5Suffix → ∃ pre2, replaceAllTF s = pre2 ++ limit5Suffix := by
  intro n
  induction n with
  | zero =>
    intro s pre hs heq
    have hsnil : s = [] := List.length_eq_zero.mp (Nat.le_zero.mp hs)
    subst hsnil
    have h2 : pre ++ limit5Suffix = [] := heq.symm
    rw [List.append_eq_nil] at h2
    exact absurd h2.2 (by decide)
  | succ n ih =>
    intro s pre hs heq
    by_cases hpre : pre = []
    · subst hpre
      simp only [List.nil_append] at heq
      subst heq
      rw [replaceAllTF_id_of_no_dollar limit5Suffix (by decide)]
      exact ⟨[], rfl⟩
    · cases s with
      | nil =>
        have h2 : pre ++ limit5Suffix = [] := heq.symm
        rw [List.append_eq_nil] at h2
        exact absurd h2.1 hpre
      | cons c cs =>
        by_cases hst : startsW timeFilterTok (c :: cs) = true
        · simp only [replaceAllTF]
          rw [if_pos hst]
          obtain ⟨rest, hrest⟩ := (startsW_iff_append timeFilterTok (c :: cs)).mp hst
          have hlen24 : timeFilterTok.length = 24 := by decide
          have hdrop : cs.drop (timeFilterTok.length - 1) = rest := by
            rw [hlen24]
            show (c :: cs).drop 24 = rest
            rw [hrest]
            have h3 := List.drop_left timeFilterTok rest
            rwa [hlen24] at h3
          have hsplit : timeFilterTok ++ rest = pre ++ limit5Suffix := by
            rw [← hrest, ← heq]
          rcases List.append_eq_append_iff.mp hsplit with ⟨a', _, ha2⟩ | ⟨c', hc1, hc2⟩
          · have hlenrest : rest.length ≤ n := by
              have h5 := congrArg List.length hdrop
              simp only [List.length_drop] at h5
              have h6 : cs.length ≤ n := by
                have h7 := hs
                simp only [List.length_cons] at h7
                omega
              omega
            obtain ⟨p2, hp2⟩ := ih rest a' hlenrest ha2
            rw [hdrop, hp2]
            exact ⟨tfReplTok ++ p2, (List.append_assoc tfReplTok p2 limit5Suffix).symm⟩
          · rcases c' with _ | ⟨d, c''⟩
            · have hrest2 : rest = limit5Suffix := by
                have := hc2
                simpa using this.symm
              rw [hdrop, hrest2,
                replaceAllTF_id_of_no_dollar limit5Suffix (by decide)]
              exact ⟨tfReplTok, rfl⟩
            · exfalso
              have hc'eq : d :: c'' = timeFilterTok.drop pre.length := by
                rw [hc1, List.drop_left]
              have hklt : pre.length < 24 := by
                have h7 := congrArg List.length hc1
                simp only [List.length_append, List.length_cons, hlen24] at h7
                omega
              have hself : startsW (d :: c'') limit5Suffix = true := by
                rw [hc2]
                exact startsW_self_append (d :: c'') rest
              have hdecT : ∀ k, k < 24 →
                  startsW (timeFilterTok.drop k) limit5Suffix = false := by decide
              rw [hc'eq] at hself
              rw [hdecT pre.length hklt] at hself
              exact Bool.noConfusion hself
        · cases hpq : pre with
          | nil => exact absurd hpq hpre
          | cons p pre' =>
            rw [hpq] at heq
            have hcc : c = p ∧ cs = pre' ++ limit5Suffix := by
              have h8 := heq
              simp only [List.cons_append, List.cons.injEq] at h8
              exact h8
            have hcs : cs.length ≤ n := by
              have h7 := hs
              simp only [List.length_cons] at h7
              omega
            obtain ⟨p2, hp2⟩ := ih cs pre' hcs hcc.2
            simp only [replaceAllTF]
            rw [if_neg hst, hp2]
            exact ⟨c :: p2, rfl⟩

/-- The preview query handed to the store always ends with the explicit row
cap ` LIMIT 5`, whatever the sanitized query contains. -/
theorem substituted_preview_keeps_limit5 (q : List Char) :
    ∃ pre2, substituteTimeFilter (previewWrap q) = pre2 ++ limit5Suffix := by
  have hB : (") AS preview LIMIT 5".data : List Char)
      = ") AS preview".data ++ limit5Suffix := by decide
  refine replaceAllTF_keeps_limit5_aux (previewWrap q).length (previewWrap q)
    ("SELECT * FROM (".data ++ q ++ ") AS preview".data) (Nat.le_refl _) ?_
  unfold previewWrap
  rw [hB]
  simp [List.append_assoc]

/-- Claim C6 (confirmed): the preview node always wraps the sanitized query
with an explicit `LIMIT 5` cap — regardless of what the query specifies — so
against any store honouring a trailing row cap, the preview rows the run
keeps are a nonempty ordered sequence of at most 5 (hence at most 10) rows;
and an execution error (`none`) or zero returned rows is a stage failure
carrying the preview error. -/
theorem claimC6 (o : Oracle) (uid : Nat) (text vtype : List Char)
    (hdb : ∀ s rows, (∃ pre, s = pre ++ limit5Suffix) → o.db s = some rows →
      rows.length ≤ 5) :
    (∀ rows, (runPipeline o uid text vtype).1.data_preview = some rows →
      rows ≠ [] ∧ rows.length ≤ 5 ∧ rows.length ≤ 10)
    ∧ (∀ st : PState,
        (o.db (substituteTimeFilter (previewWrap (optStr st.cleaned_sql_query))) = none ∨
         o.db (substituteTimeFilter (previewWrap (optStr st.cleaned_sql_query))) = some []) →
        (previewDataNode o st).status = Status.failed ∧
        (previewDataNode o st).errors = st.errors ++ [previewNoResultsMsg]) := by
  constructor
  · intro rows hr
    obtain ⟨q, hq, hne⟩ := run_preview_origin o uid text vtype rows hr
    have hle : rows.length ≤ 5 := hdb _ rows (substituted_preview_keeps_limit5 q) hq
    exact ⟨hne, hle, by omega⟩
  · intro st hcase
    rcases hcase with hnone | hnil
    · rw [previewDataNode_none o st hnone]
      exact ⟨rfl, rfl⟩
    · rw [previewDataNode_nilRows o st hnil]
      exact ⟨rfl, rfl⟩

/-- Claim C6, witness: the row-cap bound evaluated on the concrete
successful run, whose store honours the trailing cap. -/
theorem claimC6_witness :
    ([row0] : List PreviewRow) ≠ [] ∧
    ([row0] : List PreviewRow).length ≤ 5 ∧
    ([row0] : List PreviewRow).length ≤ 10 :=
  (claimC6 oGood 1 reqWest chartT (by
    intro s rows _ h
    have h2 : rows = [row0] := (Option.some.inj h).symm
    rw [h2]
    decide)).1 [row0] (by decide)

/-! ## Claim C8 -/

/-- Claim C8 (confirmed): a request text containing a price-domain keyword
of the resolver's list and no capacity keyword resolves to the
settlement-price source; and a text containing "houston" (the claim's
example, which is not in the price list) with no capacity keyword and no
keyword of the AI classifier's capacity set also resolves there, through the
AI-assisted branch. -/
theorem claimC8 (text : List Char) :
    (anyKw priceKeywords (lowerL text) = true →
      anyKw capacityKeywords (lowerL text) = false →
      resolveSource (lowerL text) availableDataSources = some settlementDS)
    ∧ (containsSub "houston".data (lowerL text) = true →
      anyKw capacityKeywords (lowerL text) = false →
      anyKw aiCapacityWords (lowerL (lowerL text)) = false →
      resolveSource (lowerL text) availableDataSources = some settlementDS) := by
  constructor
  · intro hp hc
    unfold resolveSource
    rw [if_neg (by simp [hc]), if_pos hp]
    rfl
  · intro _ hc hai
    unfold resolveSource
    rw [if_neg (by simp [hc])]
    by_cases hp : anyKw priceKeywords (lowerL text) = true
    · rw [if_pos hp]
      rfl
    · rw [if_neg hp]
      unfold aiAnalyzeDataSource
      rw [if_neg (by simp [hai])]
      rfl

/-- Claim C8, witness: the resolution evaluated on two concrete requests,
one with a price keyword and one with only "houston". -/
theorem claimC8_witness :
    resolveSource (lowerL "show houston settlement prices".data) availableDataSources
      = some settlementDS ∧
    resolveSource (lowerL "show me houston".data) availableDataSources
      = some settlementDS :=
  ⟨(claimC8 "show houston settlement prices".data).1 (by decide) (by decide),
   (claimC8 "show me houston".data).2 (by decide) (by decide) (by decide)⟩

/-! ## Claim C10 -/

/-- The claim-relevant outcome of
`GrafanaAPI.create_dashboard_from_analysis`'s response handling. -/
structure CoreGrafanaResult where
  success : Bool
  dashboard_uid : Option (List Char)
  error : Option (List Char)
deriving DecidableEq

/-- The core client's error text carries the transport status. -/
def coreGrafanaErrMsg (code : Nat) : List Char :=
  "Grafana API error: ".data ++ (Nat.repr code).data

/-- Response handling of `GrafanaAPI.create_dashboard_from_analysis`:
exactly HTTP 200 yields success with the response uid; any other status
yields failure carrying the status, with no uid. -/
def coreDeployOutcome (r : GrafanaHttp) : CoreGrafanaResult :=
  if r.statusCode = 200 then ⟨true, some r.uid, none⟩
  else ⟨false, none, some (coreGrafanaErrMsg r.statusCode)⟩

/-- Claim C10 (confirmed): both deployment paths treat exactly HTTP 200 as
success.  For any other status — including other 2xx codes — the stage
fails, no dashboard uid and no embed URL are recorded, and the failure
carries the transport status. -/
theorem claimC10 (st : PState) (r : GrafanaHttp) :
    (r.statusCode ≠ 200 →
      (deployGrafanaNode (some r) st).dashboard_uid = st.dashboard_uid ∧
      (deployGrafanaNode (some r) st).iframe_url = st.iframe_url ∧
      (deployGrafanaNode (some r) st).status = Status.failed ∧
      (deployGrafanaNode (some r) st).errors = st.errors ++ [grafanaHttpMsg r.statusCode])
    ∧ (r.statusCode = 200 →
      (deployGrafanaNode (some r) st).dashboard_uid = some r.uid ∧
      (deployGrafanaNode (some r) st).status = st.status)
    ∧ (r.statusCode ≠ 200 →
      coreDeployOutcome r = ⟨false, none, some (coreGrafanaErrMsg r.statusCode)⟩)
    ∧ (r.statusCode = 200 → coreDeployOutcome r = ⟨true, some r.uid, none⟩) := by
  refine ⟨?_, ?_, ?_, ?_⟩
  · intro h
    rw [deployGrafanaNode_non200 r st h]
    exact ⟨rfl, rfl, rfl, rfl⟩
  · intro h
    rw [deployGrafanaNode_200 r st h]
    exact ⟨rfl, rfl⟩
  · intro h
    unfold coreDeployOutcome
    rw [if_neg h]
  · intro h
    unfold coreDeployOutcome
    rw [if_pos h]

/-- Claim C10, witness: HTTP 201 — a success code other than 200 — fails
both paths. -/
theorem claimC10_witness :
    (deployGrafanaNode (some ⟨201, "u1".data⟩) (initState 1 reqWest chartT)).dashboard_uid
      = (initState 1 reqWest chartT).dashboard_uid ∧
    (deployGrafanaNode (some ⟨201, "u1".data⟩) (initState 1 reqWest chartT)).iframe_url
      = (initState 1 reqWest chartT).iframe_url ∧
    (deployGrafanaNode (some ⟨201, "u1".data⟩) (initState 1 reqWest chartT)).status
      = Status.failed ∧
    (deployGrafanaNode (some ⟨201, "u1".data⟩) (initState 1 reqWest chartT)).errors
      = (initState 1 reqWest chartT).errors ++ [grafanaHttpMsg 201] :=
  (claimC10 (initState 1 reqWest chartT) ⟨201, "u1".data⟩).1 (by decide)

/-! ## Claim C1: panel-binding persistence -/

structure BindingRow where
  user_id : Nat
  panel_id : List Char
  panel_name : List Char
  iframe_src : List Char
  ai_visualization_id : Option Nat
  dashboard_uid : List Char
  panel_order : Nat
deriving DecidableEq

abbrev BindingStore := List BindingRow

/-- WHERE user_id = u AND ai_visualization_id = viz. -/
def bindsViz (u viz : Nat) (r : BindingRow) : Bool :=
  r.user_id == u && r.ai_visualization_id == some viz

/-- WHERE user_id = u AND panel_id = pid (the UNIQUE(user_id, panel_id)
column pair of user_dashboard_settings). -/
def samePanel (u : Nat) (pid : List Char) (r : BindingRow) : Bool :=
  r.user_id == u && r.panel_id == pid

def aiPanelId (viz : Nat) : List Char :=
  "ai_viz_".data ++ (Nat.repr viz).data

/-- check_for_existing_ai_panel: the panel id of the first row bound to
(user id, visualization id), if any. -/
def checkForExistingAiPanel (s : BindingStore) (u viz : Nat) : Option (List Char) :=
  (s.find? (bindsViz u viz)).map (fun r => r.panel_id)

/-- SELECT COALESCE(MAX(panel_order), 0) + 1 over the user rows. -/
def nextPanelOrder (s : BindingStore) (u : Nat) : Nat :=
  (((s.filter (fun r => r.user_id == u)).map (fun r => r.panel_order)).foldl max 0) + 1

/-- The grafana_dashboard fields read by the app-level persistence path;
a missing URL is the empty (falsy) string. -/
structure GrafanaInfo where
  success : Bool
  panel_embed_url : List Char
  embed_url : List Char
  dashboard_uid : List Char
deriving DecidableEq

/-- grafana_info.get of panel_embed_url or embed_url (the empty string is
falsy, so the or-chain picks embed_url then). -/
def iframeOf (info : GrafanaInfo) : List Char :=
  if info.panel_embed_url ≠ [] then info.panel_embed_url else info.embed_url

/-- INSERT .. ON CONFLICT (user_id, panel_id) DO UPDATE SET panel_name,
iframe_src, dashboard_uid, updated_at against UNIQUE(user_id, panel_id):
on conflict the update leaves ai_visualization_id and panel_order alone. -/
def insertOnConflict (s : BindingStore) (row : BindingRow) : BindingStore :=
  if s.any (samePanel row.user_id row.panel_id) then
    s.map (fun r =>
      if samePanel row.user_id row.panel_id r then
        { r with panel_name := row.panel_name, iframe_src := row.iframe_src, dashboard_uid := row.dashboard_uid }
      else r)
  else s ++ [row]

/-- The row the app path inserts. -/
def mkAppRow (s : BindingStore) (u viz : Nat) (info : GrafanaInfo)
    (title : List Char) : BindingRow :=
  { user_id := u
    panel_id := aiPanelId viz
    panel_name := if startsW "AI: ".data title = true then title else "AI: ".data ++ title
    iframe_src := iframeOf info
    ai_visualization_id := some viz
    dashboard_uid := info.dashboard_uid
    panel_order := nextPanelOrder s u }

/-- add_ai_visualization_to_dashboard (src/app.py): validate the Grafana
info, return the store unchanged when a binding for the pair already
exists, otherwise insert with conflict resolution on (user_id, panel_id). -/
def addAiVisualizationToDashboard (s : BindingStore) (u viz : Nat)
    (info : GrafanaInfo) (title : List Char) : BindingStore :=
  if info.success = false then s
  else if iframeOf info = [] then s
  else if info.dashboard_uid = [] then s
  else
    match s.find? (bindsViz u viz) with
    | some _ => s
    | none => insertOnConflict s (mkAppRow s u viz info title)

/-- The row the langgraph path inserts. -/
def mkLgRow (s : BindingStore) (u viz : Nat)
    (title iframe duid : List Char) : BindingRow :=
  { user_id := u
    panel_id := aiPanelId viz
    panel_name := "AI: ".data ++ title
    iframe_src := iframe
    ai_visualization_id := some viz
    dashboard_uid := duid
    panel_order := nextPanelOrder s u }

/-- _add_to_user_dashboard (langgraph): a plain INSERT with no existence
check; Except.error models the unique-violation raise of
UNIQUE(user_id, panel_id) on a duplicate key. -/
def addToUserDashboard (s : BindingStore) (u viz : Nat)
    (title iframe duid : List Char) : Except Unit BindingStore :=
  if s.any (samePanel u (aiPanelId viz)) then Except.error ()
  else Except.ok (s ++ [mkLgRow s u viz title iframe duid])

/-- Number of rows bound to (user id, visualization id). -/
def countBindings (s : BindingStore) (u viz : Nat) : Nat :=
  (s.filter (bindsViz u viz)).length

theorem bindsViz_mkAppRow (s : BindingStore) (u viz : Nat) (info : GrafanaInfo)
    (title : List Char) : bindsViz u viz (mkAppRow s u viz info title) = true := by
  simp [bindsViz, mkAppRow]

theorem samePanel_mkLgRow (s : BindingStore) (u viz : Nat)
    (title iframe duid : List Char) :
    samePanel u (aiPanelId viz) (mkLgRow s u viz title iframe duid) = true := by
  simp [samePanel, mkLgRow]

theorem bindsViz_mkLgRow (s : BindingStore) (u viz : Nat)
    (title iframe duid : List Char) :
    bindsViz u viz (mkLgRow s u viz title iframe duid) = true := by
  simp [bindsViz, mkLgRow]

theorem find?_append_none {α : Type} (p : α → Bool) (s t : List α)
    (h : s.find? p = none) : (s ++ t).find? p = t.find? p := by
  induction s with
  | nil => rfl
  | cons a as ih =>
    by_cases hpa : p a = true
    · rw [List.find?_cons_of_pos _ hpa] at h
      exact absurd h (by simp)
    · rw [List.find?_cons_of_neg _ (by simp [hpa])] at h
      rw [List.cons_append, List.find?_cons_of_neg _ (by simp [hpa])]
      exact ih h

theorem find?_none_of_filter_nil {α : Type} (p : α → Bool) (s : List α)
    (h : s.filter p = []) : s.find? p = none := by
  induction s with
  | nil => rfl
  | cons a as ih =>
    by_cases hpa : p a = true
    · rw [List.filter_cons_of_pos hpa] at h
      exact absurd h (by simp)
    · rw [List.filter_cons_of_neg (by simp [hpa])] at h
      rw [List.find?_cons_of_neg _ (by simp [hpa])]
      exact ih h

theorem addAi_guard_fail (s : BindingStore) (u viz : Nat) (info : GrafanaInfo)
    (title : List Char)
    (h : info.success = false ∨ iframeOf info = [] ∨ info.dashboard_uid = []) :
    addAiVisualizationToDashboard s u viz info title = s := by
  unfold addAiVisualizationToDashboard
  by_cases h1 : info.success = false
  · rw [if_pos h1]
  · rw [if_neg h1]
    by_cases h2 : iframeOf info = []
    · rw [if_pos h2]
    · rw [if_neg h2]
      rcases h with h | h | h
      · exact absurd h h1
      · exact absurd h h2
      · rw [if_pos h]

theorem addAi_pass (s : BindingStore) (u viz : Nat) (info : GrafanaInfo)
    (title : List Char)
    (h1 : ¬ info.success = false) (h2 : ¬ iframeOf info = [])
    (h3 : ¬ info.dashboard_uid = [])
    (hf : s.find? (bindsViz u viz) = none)
    (hp : s.any (samePanel u (aiPanelId viz)) = false) :
    addAiVisualizationToDashboard s u viz info title
      = s ++ [mkAppRow s u viz info title] := by
  unfold addAiVisualizationToDashboard
  rw [if_neg h1, if_neg h2, if_neg h3, hf]
  show insertOnConflict s (mkAppRow s u viz info title) = _
  unfold insertOnConflict
  rw [if_neg]
  show ¬ (s.any (samePanel u (aiPanelId viz)) = true)
  simp [hp]

theorem addAi_found (s : BindingStore) (u viz : Nat) (info : GrafanaInfo)
    (title : List Char)
    (hf : (s.find? (bindsViz u viz)).isSome = true) :
    addAiVisualizationToDashboard s u viz info title = s := by
  unfold addAiVisualizationToDashboard
  by_cases h1 : info.success = false
  · rw [if_pos h1]
  · rw [if_neg h1]
    by_cases h2 : iframeOf info = []
    · rw [if_pos h2]
    · rw [if_neg h2]
      by_cases h3 : info.dashboard_uid = []
      · rw [if_pos h3]
      · rw [if_neg h3]
        cases hfe : s.find? (bindsViz u viz) with
        | none => simp [hfe] at hf
        | some r => rfl

/-- Claim C1 (amended): the app-level path upholds the invariant — a
binding found by the (user id, visualization id) lookup makes the call a
no-op, and from a store without the binding a double invocation equals a
single one and leaves at most one bound row — but the langgraph path does
no lookup: its first call appends the row and any repeat call for the same
pair hits UNIQUE(user_id, panel_id) and raises instead of returning the
store unchanged. -/
theorem claimC1_amended (s : BindingStore) (u viz : Nat) (info : GrafanaInfo)
    (title : List Char) :
    ((checkForExistingAiPanel s u viz).isSome = true →
      addAiVisualizationToDashboard s u viz info title = s)
    ∧ (countBindings s u viz = 0 →
       s.any (samePanel u (aiPanelId viz)) = false →
       addAiVisualizationToDashboard
           (addAiVisualizationToDashboard s u viz info title) u viz info title
         = addAiVisualizationToDashboard s u viz info title
       ∧ countBindings (addAiVisualizationToDashboard
           (addAiVisualizationToDashboard s u viz info title) u viz info title) u viz ≤ 1)
    ∧ (∀ iframe duid s2 t2 i2 d2,
        addToUserDashboard s u viz title iframe duid = Except.ok s2 →
        countBindings s2 u viz = countBindings s u viz + 1 ∧
        addToUserDashboard s2 u viz t2 i2 d2 = Except.error ()) := by
  refine ⟨?_, ?_, ?_⟩
  · intro h
    apply addAi_found
    unfold checkForExistingAiPanel at h
    simpa using h
  · intro hc hp
    have hfil : s.filter (bindsViz u viz) = [] := by
      unfold countBindings at hc
      exact List.length_eq_zero.mp hc
    have hf : s.find? (bindsViz u viz) = none := find?_none_of_filter_nil _ _ hfil
    by_cases hg : info.success = false ∨ iframeOf info = [] ∨ info.dashboard_uid = []
    · have he := addAi_guard_fail s u viz info title hg
      rw [he]
      refine ⟨he, ?_⟩
      rw [he]
      simp [hc]
    · push_neg at hg
      obtain ⟨h1, h2, h3⟩ := hg
      have he := addAi_pass s u viz info title h1 h2 h3 hf hp
      have hf2 : (s ++ [mkAppRow s u viz info title]).find? (bindsViz u viz)
          = some (mkAppRow s u viz info title) := by
        rw [find?_append_none _ _ _ hf]
        exact List.find?_cons_of_pos _ (bindsViz_mkAppRow s u viz info title)
      have he2 : addAiVisualizationToDashboard
          (s ++ [mkAppRow s u viz info title]) u viz info title
          = s ++ [mkAppRow s u viz info title] := by
        apply addAi_found
        rw [hf2]
        rfl
      rw [he, he2]
      refine ⟨rfl, ?_⟩
      unfold countBindings
      rw [List.filter_append, hfil]
      rw [List.filter_cons_of_pos (bindsViz_mkAppRow s u viz info title)]
      simp
  · intro iframe duid s2 t2 i2 d2 hok
    unfold addToUserDashboard at hok
    by_cases ha : s.any (samePanel u (aiPanelId viz)) = true
    · rw [if_pos ha] at hok
      exact Except.noConfusion hok
    · rw [if_neg ha] at hok
      injection hok with hs2
      subst hs2
      constructor
      · unfold countBindings
        rw [List.filter_append,
          List.filter_cons_of_pos (bindsViz_mkLgRow s u viz title iframe duid)]
        simp
      · unfold addToUserDashboard
        rw [if_pos]
        rw [List.any_append]
        simp [samePanel_mkLgRow]

def c1Row : BindingRow :=
  { user_id := 1
    panel_id := "ai_viz_7".data
    panel_name := "AI: T".data
    iframe_src := "I".data
    ai_visualization_id := some 7
    dashboard_uid := "D".data
    panel_order := 1 }

/-- Claim C1, counterexample: on the langgraph persistence path a first call
inserts the binding, but a second call with the same (user id,
visualization id) raises on UNIQUE(user_id, panel_id) instead of looking the
existing binding up and returning it unchanged, even though the lookup would
find it. -/
theorem claimC1_counterexample :
    addToUserDashboard [] 1 7 "T".data "I".data "D".data = Except.ok [c1Row] ∧
    checkForExistingAiPanel [c1Row] 1 7 = some "ai_viz_7".data ∧
    addToUserDashboard [c1Row] 1 7 "T".data "I".data "D".data = Except.error () := by
  refine ⟨?_, ?_, ?_⟩ <;> rfl

def c1Info : GrafanaInfo :=
  { success := true
    panel_embed_url := "P".data
    embed_url := []
    dashboard_uid := "D".data }

/-- Claim C1, witness: the amended idempotence evaluated on the app path from
the empty store. -/
theorem claimC1_witness :
    addAiVisualizationToDashboard
        (addAiVisualizationToDashboard [] 2 9 c1Info "T".data) 2 9 c1Info "T".data
      = addAiVisualizationToDashboard [] 2 9 c1Info "T".data ∧
    countBindings (addAiVisualizationToDashboard
        (addAiVisualizationToDashboard [] 2 9 c1Info "T".data) 2 9 c1Info "T".data) 2 9 ≤ 1 :=
  (claimC1_amended [] 2 9 c1Info "T".data).2.1 (by decide) (by decide)

end AnalyticsDashboard
